import Mathlib

/-!
Verification development for the bmloader repository (src/bmloader.js).

The JavaScript source is shallowly embedded: JS numbers are modelled as
rationals (`ℚ`), with `Option ℚ` (`JNum`) where NaN can arise; JS strings are
Lean `String`s; the few places where the source mutates objects through
references (the geometry cache, scene nodes targeted by animations) are
modelled with explicit heaps indexed by natural numbers.  `Math.PI` is the
IEEE-754 double stored by JS engines, kept here as its exact rational value
(floating-point rounding of the arithmetic on top of it is abstracted away).
-/

namespace BMLoader

/-- The exact rational value of the IEEE-754 double `Math.PI`
(884279719003555 × 2⁻⁴⁸). -/
def piQ : ℚ := 884279719003555 / 281474976710656

/-- `MathUtils.degToRad(x) = x * (Math.PI / 180)` (three.js MathUtils). -/
def degToRad (x : ℚ) : ℚ := x * (piQ / 180)

/-- `const FULLTURN = MathUtils.degToRad(360)` (bmloader.js line 45). -/
def FULLTURN : ℚ := degToRad 360

/-- A JS number; `none` models NaN. -/
abbrev JNum := Option ℚ

/-- JS `+` on numbers: NaN-propagating. -/
def jadd : JNum → JNum → JNum
  | some a, some b => some (a + b)
  | _, _ => none

/-- JS `-` on numbers: NaN-propagating. -/
def jsub : JNum → JNum → JNum
  | some a, some b => some (a - b)
  | _, _ => none

/-- JS `*` on numbers: NaN-propagating. -/
def jmul : JNum → JNum → JNum
  | some a, some b => some (a * b)
  | _, _ => none

/-- JS `>` on numbers: any comparison with NaN is false. -/
def jgt : JNum → JNum → Bool
  | some a, some b => decide (a > b)
  | _, _ => false

/-- JS `>=` on numbers: any comparison with NaN is false. -/
def jge : JNum → JNum → Bool
  | some a, some b => decide (a ≥ b)
  | _, _ => false

/-- JS `<=` on numbers: any comparison with NaN is false. -/
def jle : JNum → JNum → Bool
  | some a, some b => decide (a ≤ b)
  | _, _ => false

/-- Map a total rational function over a JS number (NaN-propagating). -/
def jmap (f : ℚ → ℚ) : JNum → JNum
  | some a => some (f a)
  | none => none

/-- A JS value as it occurs in the interpreter's variable registry and in
animation instructions: a number, NaN, a string, or a reference to a scene
object (modelled as an index into an explicit object heap). -/
inductive JSVal where
  | num (q : ℚ)
  | nan
  | str (s : String)
  | obj (id : ℕ)
deriving Repr, DecidableEq

/-- A `\w` word character as in the JS regexes of `getModValue`. -/
def isWordChar (c : Char) : Bool := c.isAlphanum || c = '_'

/-- A decimal digit character. -/
def isDigitChar (c : Char) : Bool := c.isDigit

/-- Numeric value of a run of digit characters (most significant first). -/
def natOfDigits (ds : List Char) : ℕ :=
  ds.foldl (fun a c => a * 10 + (c.toNat - '0'.toNat)) 0

/-- Value of a run of digit characters read as a fractional part. -/
def fracOfDigits (ds : List Char) : ℚ :=
  ds.foldr (fun c a => ((c.toNat - '0'.toNat : ℕ) + a) / 10) 0

/-- JS `parseFloat` on a string: optional sign, then the longest numeric
prefix `digits[.digits]`; `none` models NaN (no digits at all).  Exponent
forms are not used by the scripts modelled here. -/
def parseFloatJS (s : String) : Option ℚ :=
  let cs := s.toList
  let p := match cs with
    | '-' :: r => ((-1 : ℚ), r)
    | '+' :: r => ((1 : ℚ), r)
    | _ => ((1 : ℚ), cs)
  let ip := p.2.takeWhile isDigitChar
  let rest := p.2.dropWhile isDigitChar
  let fp := match rest with
    | '.' :: r => r.takeWhile isDigitChar
    | _ => []
  if ip = [] ∧ fp = [] then none
  else some (p.1 * ((natOfDigits ip : ℚ) + fracOfDigits fp))

/-- JS `Number(s)` coercion (used by `isNaN(s)` and by `>=` against a string):
trimmed empty string is 0, otherwise the whole string must be a signed decimal
numeral; `none` models NaN. -/
def jsNumberOfString (s : String) : Option ℚ :=
  let cs := (s.toList.dropWhile (· = ' ')).reverse.dropWhile (· = ' ') |>.reverse
  if cs = [] then some 0
  else
    let p := match cs with
      | '-' :: r => ((-1 : ℚ), r)
      | '+' :: r => ((1 : ℚ), r)
      | _ => ((1 : ℚ), cs)
    let ip := p.2.takeWhile isDigitChar
    let rest := p.2.dropWhile isDigitChar
    match rest with
    | [] => if ip = [] then none else some (p.1 * (natOfDigits ip : ℚ))
    | '.' :: r =>
      if r.all isDigitChar ∧ ¬(ip = [] ∧ r = []) then
        some (p.1 * ((natOfDigits ip : ℚ) + fracOfDigits r))
      else none
    | _ => none

/-- JS `parseInt` (radix 10): leading whitespace skipped, optional sign, then
the longest digit prefix; `none` models NaN. -/
def parseIntJS (s : String) : Option ℤ :=
  let cs := s.toList.dropWhile (· = ' ')
  let p := match cs with
    | '-' :: r => ((-1 : ℤ), r)
    | '+' :: r => ((1 : ℤ), r)
    | _ => ((1 : ℤ), cs)
  let ds := p.2.takeWhile isDigitChar
  if ds = [] then none else some (p.1 * (natOfDigits ds : ℤ))

/-- The regex `^(-?)\$(\w+)$` of `getModValue` (bmloader.js line 1763):
returns (negation flag, variable name) on a match. -/
def varOnlyMatch (s : String) : Option (Bool × String) :=
  let cs := s.toList
  let p := match cs with
    | '-' :: rest => (true, rest)
    | _ => (false, cs)
  match p.2 with
  | '$' :: rest =>
    if rest ≠ [] ∧ rest.all isWordChar then some (p.1, String.mk rest) else none
  | _ => none

/-- Does a character list contain `$` followed by a word character
(the regex `/\$\w+/`)? -/
def hasDollarWord : List Char → Bool
  | [] => false
  | '$' :: c :: rest => isWordChar c || hasDollarWord (c :: rest)
  | _ :: rest => hasDollarWord rest

/-- One of the arithmetic characters of the regex `/[+\-*\/()]/`. -/
def isMathOp (c : Char) : Bool :=
  c = '+' || c = '-' || c = '*' || c = '/' || c = '(' || c = ')'

/-- `looksLikeMath` test of `getModValue` (bmloader.js line 1771). -/
def looksLikeMath (s : String) : Bool :=
  s.toList.any isMathOp || hasDollarWord s.toList

/-- The rewrite `val.replace(/\$(\w+)/g, (_, name) => name)` (line 1777):
drop each `$` that is followed by a word character. -/
def cleanDollar : List Char → List Char
  | [] => []
  | '$' :: c :: rest =>
    if isWordChar c then c :: cleanDollar rest else '$' :: cleanDollar (c :: rest)
  | c :: rest => c :: cleanDollar rest

/-- Token of the arithmetic expression language accepted by the `expr-eval`
parser for the expressions bmloader scripts use (identifiers, decimal
numbers, `+ - * /`, parentheses). -/
inductive Tok where
  | num (q : ℚ)
  | ident (s : String)
  | plus
  | minus
  | star
  | slash
  | lp
  | rp
  | bad
deriving Repr, DecidableEq

/-- Tokenizer for the expression fragment; `fuel` is an upper bound on the
number of tokens (each token consumes at least one character). -/
def tokenize : ℕ → List Char → List Tok
  | 0, _ => [.bad]
  | _, [] => []
  | fuel + 1, c :: cs =>
    if c = '+' then .plus :: tokenize fuel cs
    else if c = '-' then .minus :: tokenize fuel cs
    else if c = '*' then .star :: tokenize fuel cs
    else if c = '/' then .slash :: tokenize fuel cs
    else if c = '(' then .lp :: tokenize fuel cs
    else if c = ')' then .rp :: tokenize fuel cs
    else if isDigitChar c then
      let ip := (c :: cs).takeWhile isDigitChar
      let rest := (c :: cs).dropWhile isDigitChar
      match rest with
      | '.' :: r =>
        let fp := r.takeWhile isDigitChar
        .num ((natOfDigits ip : ℚ) + fracOfDigits fp) ::
          tokenize fuel (r.dropWhile isDigitChar)
      | _ => .num (natOfDigits ip : ℚ) :: tokenize fuel rest
    else if isWordChar c then
      .ident (String.mk ((c :: cs).takeWhile isWordChar)) ::
        tokenize fuel ((c :: cs).dropWhile isWordChar)
    else .bad :: tokenize fuel cs

/-- Abstract syntax of the parsed expression (the `expr-eval` AST fragment
exercised by bmloader scripts). -/
inductive Ast where
  | num (q : ℚ)
  | var (s : String)
  | add (a b : Ast)
  | sub (a b : Ast)
  | mul (a b : Ast)
  | div (a b : Ast)
  | neg (a : Ast)
deriving Repr, DecidableEq

mutual

/-- Atom: number, identifier, unary minus, or parenthesised expression. -/
def parseAtom : ℕ → List Tok → Option (Ast × List Tok)
  | 0, _ => none
  | _ + 1, .num q :: r => some (.num q, r)
  | _ + 1, .ident s :: r => some (.var s, r)
  | fuel + 1, .minus :: r =>
    (parseAtom fuel r).map (fun p => (.neg p.1, p.2))
  | fuel + 1, .lp :: r =>
    match parseSum fuel r with
    | some (a, .rp :: r2) => some (a, r2)
    | _ => none
  | _ + 1, _ => none

/-- Product chain over atoms. -/
def parseProd : ℕ → List Tok → Option (Ast × List Tok)
  | 0, _ => none
  | fuel + 1, ts =>
    match parseAtom fuel ts with
    | none => none
    | some (a, r) => parseProdRest fuel a r

/-- Remainder of a product chain. -/
def parseProdRest : ℕ → Ast → List Tok → Option (Ast × List Tok)
  | 0, _, _ => none
  | fuel + 1, a, .star :: r =>
    match parseAtom fuel r with
    | none => none
    | some (b, r2) => parseProdRest fuel (.mul a b) r2
  | fuel + 1, a, .slash :: r =>
    match parseAtom fuel r with
    | none => none
    | some (b, r2) => parseProdRest fuel (.div a b) r2
  | _ + 1, a, r => some (a, r)

/-- Sum chain over products. -/
def parseSum : ℕ → List Tok → Option (Ast × List Tok)
  | 0, _ => none
  | fuel + 1, ts =>
    match parseProd fuel ts with
    | none => none
    | some (a, r) => parseSumRest fuel a r

/-- Remainder of a sum chain. -/
def parseSumRest : ℕ → Ast → List Tok → Option (Ast × List Tok)
  | 0, _, _ => none
  | fuel + 1, a, .plus :: r =>
    match parseProd fuel r with
    | none => none
    | some (b, r2) => parseSumRest fuel (.add a b) r2
  | fuel + 1, a, .minus :: r =>
    match parseProd fuel r with
    | none => none
    | some (b, r2) => parseSumRest fuel (.sub a b) r2
  | _ + 1, a, r => some (a, r)

end

/-- `parser.parse(cleanExpr)` (bmloader.js line 1780): `none` models the
parse throwing (caught at line 1787). -/
def parseExpr (s : String) : Option Ast :=
  let ts := tokenize (s.length + 1) s.toList
  if ts.contains .bad then none
  else
    match parseSum (4 * ts.length + 8) ts with
    | some (a, []) => some a
    | _ => none

/-- Numeric view of an evaluator scope value.  The scripts modelled here only
feed numbers into arithmetic; a non-numeric operand makes the evaluation fail
(`none`), which `getModValue` turns into its catch-branch fallback. -/
def jsToNumOpt : JSVal → Option ℚ
  | .num q => some q
  | _ => none

/-- Evaluate a parsed expression.  `resolve` is the scope lookup (the Proxy of
bmloader.js line 1781), which threads the mutable `visited` set through the
evaluation exactly as the shared JS `Set` does. -/
def evalAst (resolve : String → List String → JSVal × List String) :
    Ast → List String → Option ℚ × List String
  | .num q, vis => (some q, vis)
  | .var n, vis =>
    let p := resolve n vis
    (jsToNumOpt p.1, p.2)
  | .neg a, vis =>
    let p := evalAst resolve a vis
    (p.1.map (fun q => -q), p.2)
  | .add a b, vis =>
    let p := evalAst resolve a vis
    let q := evalAst resolve b p.2
    (match p.1, q.1 with
     | some x, some y => some (x + y)
     | _, _ => none, q.2)
  | .sub a b, vis =>
    let p := evalAst resolve a vis
    let q := evalAst resolve b p.2
    (match p.1, q.1 with
     | some x, some y => some (x - y)
     | _, _ => none, q.2)
  | .mul a b, vis =>
    let p := evalAst resolve a vis
    let q := evalAst resolve b p.2
    (match p.1, q.1 with
     | some x, some y => some (x * y)
     | _, _ => none, q.2)
  | .div a b, vis =>
    let p := evalAst resolve a vis
    let q := evalAst resolve b p.2
    (match p.1, q.1 with
     | some x, some y => some (x / y)
     | _, _ => none, q.2)

/-- First binding of a name in an association list (JS object property
lookup on the spread-merged `rawVars`). -/
def lookupVar (vars : List (String × JSVal)) (k : String) : Option JSVal :=
  (vars.find? (fun p => p.1 = k)).map (fun p => p.2)

/-- `getModValue(val, renderModel, visited)` (bmloader.js lines 1739-1791).

`vars` is the spread-merged map `{...variables, ...variableOverrides}`, with
override entries listed first so that they shadow script bindings.  The
`visited` set is threaded explicitly; the result pairs the value with the
updated set.  `fuel` bounds the depth of variable-to-variable resolution: the
source recurses only through `resolveVar`, which inserts a fresh name into
`visited` before each descent, so `vars.length + 1` fuel is always enough;
the fuel-0 branch is unreachable from `getModValueTop`. -/
def getModValue : ℕ → List (String × JSVal) → JSVal → List String → JSVal × List String
  | 0, _, _, vis => (.num 0, vis)
  | fuel + 1, vars, val, vis =>
    match val with
    | .str s =>
      let resolveVar : String → List String → JSVal × List String := fun key vis =>
        if key ∈ vis then (.num 0, vis)
        else
          let vis' := vis ++ [key]
          match lookupVar vars key with
          | none => (.num 0, vis')
          | some v => getModValue fuel vars v vis'
      match varOnlyMatch s with
      | some (negFlag, name) =>
        let p := resolveVar name vis
        (match p.1 with
         | .num q => if negFlag then .num (-q) else .num q
         | r => r, p.2)
      | none =>
        if ¬ looksLikeMath s then
          (match jsNumberOfString s with
           | none => .str s
           | some _ =>
             match parseFloatJS s with
             | some q => .num q
             | none => .nan, vis)
        else
          match parseExpr (String.mk (cleanDollar s.toList)) with
          | none => (.str s, vis)
          | some ast =>
            let p := evalAst resolveVar ast vis
            (match p.1 with
             | some q => .num q
             | none => .str s, p.2)
    | v => (v, vis)

/-- Top-level `getModValue(val, renderModel)` call with a fresh `visited`
set, as issued at every instruction site. -/
def getModValueTop (vars : List (String × JSVal)) (val : JSVal) : JSVal :=
  (getModValue (vars.length + 1) vars val []).1

end BMLoader

namespace BMLoader

/-! The animation stepping engine: `RenderAnimation`, `animateModel` and
`doAnimate` (bmloader.js lines 1247-1349 and 1351-1447). -/

/-- A mutable xyz triple of JS numbers (a three.js `Vector3`/`Euler`). -/
structure JVec3 where
  x : JNum := some 0
  y : JNum := some 0
  z : JNum := some 0
deriving Repr, DecidableEq

/-- The transform state of one scene object (the fields of a three.js
`Object3D` that the animation engine reads and writes). -/
structure NodeState where
  position : JVec3 := {}
  rotation : JVec3 := {}
  scale : JVec3 := { x := some 1, y := some 1, z := some 1 }
deriving Repr, DecidableEq

/-- One parsed animation instruction (class `RenderAnimation`,
bmloader.js lines 1247-1261): target variable name, action identifier,
speed expression, step-target expressions, the mutable step cursor and the
elapsed-time accumulator. -/
structure RenderAnimation where
  target : String
  action : String
  speed : JSVal
  steps : List JSVal
  step : ℕ := 0
  renTime : ℚ := 0
deriving Repr, DecidableEq

/-- One named animation track list.  In the source this is a JS array of
`RenderAnimation`s; `animateModel` executes `ani.step = 0` on that array,
which lands as an expando property on the array object itself (never on the
instructions), modelled here by the separate field `arrayStep`. -/
structure TrackList where
  insts : List RenderAnimation
  arrayStep : Option ℕ := none
deriving Repr, DecidableEq

/-- The slice of `RenderBasicModel`/`bmDat` state that the animation engine
touches.  Scene objects live in the heap `objects`; a registry value
`JSVal.obj i` is a reference to `objects[i]`, mirroring JS object identity. -/
structure AnimModel where
  objects : List NodeState
  /-- `bmDat.variables` (the name `variables` itself is a reserved word in
  Lean). -/
  variableMap : List (String × JSVal)
  variableOverrides : List (String × JSVal) := []
  animations : List (String × TrackList)
  animation : Option String := none
  lastAnimation : Option String := none
  defaultState : List NodeState := []
deriving Repr, DecidableEq

/-- The spread-merged registry `{...variables, ...variableOverrides}` used by
`getModValue`: overrides shadow script bindings, so they are listed first. -/
def mergedVars (m : AnimModel) : List (String × JSVal) :=
  m.variableOverrides ++ m.variableMap

/-- The object property chosen by `changeBaseOb` in `doAnimate`. -/
inductive BaseProp where
  | position
  | rotation
  | scale
deriving Repr, DecidableEq

/-- Axis selected by the lower-cased action suffix (`subProp`). -/
inductive Axis where
  | x
  | y
  | z
deriving Repr, DecidableEq

/-- The three chained prefix tests of `doAnimate` (bmloader.js lines
1389-1410): `scale*`, `rotate*`, `position*`, each yielding the base
property and the lower-cased remainder of the action string. -/
def classifyAction (action : String) : Option (BaseProp × String) :=
  if action.startsWith "scale" then some (.scale, (action.drop 5).toLower)
  else if action.startsWith "rotate" then some (.rotation, (action.drop 6).toLower)
  else if action.startsWith "position" then some (.position, (action.drop 8).toLower)
  else none

/-- Interpret the `subProp` string as an axis; anything else would index a
nonexistent property in JS (no well-formed script reaches it, modelled as a
no-op). -/
def axisOf (s : String) : Option Axis :=
  if s = "x" then some .x else if s = "y" then some .y
  else if s = "z" then some .z else none

/-- Read `ob[changeBaseOb][subProp]`. -/
def getField (ob : NodeState) (b : BaseProp) (a : Axis) : JNum :=
  match b, a with
  | .position, .x => ob.position.x
  | .position, .y => ob.position.y
  | .position, .z => ob.position.z
  | .rotation, .x => ob.rotation.x
  | .rotation, .y => ob.rotation.y
  | .rotation, .z => ob.rotation.z
  | .scale, .x => ob.scale.x
  | .scale, .y => ob.scale.y
  | .scale, .z => ob.scale.z

/-- Write `ob[changeBaseOb][subProp] = v`. -/
def setField (ob : NodeState) (b : BaseProp) (a : Axis) (v : JNum) : NodeState :=
  match b, a with
  | .position, .x => { ob with position := { ob.position with x := v } }
  | .position, .y => { ob with position := { ob.position with y := v } }
  | .position, .z => { ob with position := { ob.position with z := v } }
  | .rotation, .x => { ob with rotation := { ob.rotation with x := v } }
  | .rotation, .y => { ob with rotation := { ob.rotation with y := v } }
  | .rotation, .z => { ob with rotation := { ob.rotation with z := v } }
  | .scale, .x => { ob with scale := { ob.scale with x := v } }
  | .scale, .y => { ob with scale := { ob.scale with y := v } }
  | .scale, .z => { ob with scale := { ob.scale with z := v } }

/-- JS `parseFloat` applied to an arbitrary value (`parseFloat(rawSpeed)`,
`parseFloat(tgtVal)`): numbers pass through, strings are prefix-parsed,
everything else is NaN. -/
def jsParseFloat : JSVal → JNum
  | .num q => some q
  | .str s => parseFloatJS s
  | _ => none

/-- JS `Number()` coercion of a registry value (used by the `>=` comparison
against `inst.speed` in the texture-change branch). -/
def jsNumberConv : JSVal → JNum
  | .num q => some q
  | .str s => jsNumberOfString s
  | _ => none

/-- `doAnimate(model, inst, delta)` (bmloader.js lines 1351-1447), returning
the updated object heap and the updated instruction.

The texture-swap itself (an asynchronous material replacement) is an external
collaborator and is elided; its step-cursor and timer bookkeeping is kept.
The speed is converted `MathUtils.degToRad(parseFloat(rawSpeed)) * delta`
for every action kind (line 1356); only rotation step targets are converted
(line 1403).  `doAnimateCore` is the tail of the function from the target
resolution onward (lines 1389-1446), factored out so the action dispatch
and the scalar kinematics can be reasoned about separately. -/
def doAnimateCore (m : AnimModel) (inst : RenderAnimation) (oid : ℕ)
    (ob : NodeState) (base : BaseProp) (ax : Axis) (speed : JNum)
    (tgtVal : Option JSVal) : AnimModel × RenderAnimation :=
  let targetOpt : JNum :=
    match base with
    | .scale => jsParseFloat (tgtVal.getD .nan)
    | .rotation => jmap degToRad (jsParseFloat (tgtVal.getD .nan))
    | .position => jsParseFloat (tgtVal.getD .nan)
  if base = .scale ∧ targetOpt = none then (m, inst)
  else
    let cur := getField ob base ax
    let res : JNum × ℕ :=
      if jgt cur targetOpt then
        let moved := jsub cur speed
        if jle moved targetOpt then
          let v := targetOpt
          let v := if base = .rotation ∧ jle v (some (-FULLTURN)) then
              jadd v (some FULLTURN) else v
          (v, inst.step + 1)
        else (moved, inst.step)
      else
        let moved := jadd cur speed
        let p : JNum × ℕ :=
          if jge moved targetOpt then (targetOpt, inst.step + 1)
          else (moved, inst.step)
        let v := if base = .rotation ∧ jge p.1 (some FULLTURN) then
            jsub p.1 (some FULLTURN) else p.1
        (v, p.2)
    let st' := if res.2 ≥ inst.steps.length then 0 else res.2
    ({ m with objects := m.objects.set oid (setField ob base ax res.1) },
     { inst with step := st' })

def doAnimate (m : AnimModel) (inst : RenderAnimation) (delta : ℚ) :
    AnimModel × RenderAnimation :=
  match lookupVar m.variableMap inst.target with
  | some (.obj oid) =>
    match m.objects.get? oid with
    | none => (m, inst)
    | some ob =>
      let rawSpeed := getModValueTop (mergedVars m) inst.speed
      let speed : JNum := jmul (jmap degToRad (jsParseFloat rawSpeed)) (some delta)
      let rawVal : Option JSVal := inst.steps.get? inst.step
      let tgtVal : Option JSVal := rawVal.map (getModValueTop (mergedVars m))
      if inst.action.startsWith "txChange" then
        let renTime' := inst.renTime + delta
        if jge (some renTime') (jsNumberConv inst.speed) then
          let step' := inst.step + 1
          (m, { inst with renTime := 0,
                          step := if step' ≥ inst.steps.length then 0 else step' })
        else
          (m, { inst with renTime := renTime' })
      else
        match classifyAction inst.action with
        | none => (m, inst)
        | some (base, sub) =>
          match axisOf sub with
          | none => (m, inst)
          | some ax => doAnimateCore m inst oid ob base ax speed tgtVal
  | _ => (m, inst)

/-- `saveModelState` (bmloader.js lines 2650-2668): snapshot every reachable
object's transform, keyed by object identity (here, by heap index). -/
def saveState (m : AnimModel) : AnimModel :=
  { m with defaultState := m.objects }

/-- `restoreModelState` (bmloader.js lines 2670-2688): put back the saved
transform of each object that has a snapshot entry. -/
def restoreState (m : AnimModel) : AnimModel :=
  { m with objects := m.objects.mapIdx (fun i ob => (m.defaultState.get? i).getD ob) }

/-- Run the active track's instructions in list order, threading the heap. -/
def runTrack (m : AnimModel) (insts : List RenderAnimation) (delta : ℚ) :
    AnimModel × List RenderAnimation :=
  match insts with
  | [] => (m, [])
  | i :: rest =>
    let p := doAnimate m i delta
    let q := runTrack p.1 rest delta
    (q.1, p.2 :: q.2)

/-- `animateModel(model, delta)` (bmloader.js lines 1297-1349).

`bmDat.animations` is always an object, so the guard
`!model.bmDat.animations || !model.bmDat.animation` reduces to the active
animation name being unset.  Note that both cursor-reset loops execute
`ani.step = 0` where `ani` is the track-list array, which only sets the
array's own `step` expando property (`arrayStep` here); the instructions'
`step` cursors are not touched. -/
def animateModel (m : AnimModel) (delta : ℚ) : AnimModel :=
  match m.animation with
  | none =>
    let m :=
      if m.lastAnimation ≠ none then restoreState { m with lastAnimation := none }
      else m
    { m with animations := m.animations.map (fun p => (p.1, { p.2 with arrayStep := some 0 })) }
  | some act =>
    let m : AnimModel := if m.lastAnimation = none then saveState m else m
    let m : AnimModel :=
      { m with
        animations := m.animations.map (fun (p : String × TrackList) =>
          if p.1 = act then p else (p.1, { p.2 with arrayStep := some 0 })),
        lastAnimation := some act }
    match m.animations.find? (fun p => p.1 = act) with
    | none => m
    | some (_, track) =>
      let p : AnimModel × List RenderAnimation := runTrack m track.insts delta
      { p.1 with
        animations := p.1.animations.map (fun (q : String × TrackList) =>
          if q.1 = act then (q.1, { q.2 with insts := p.2 }) else q) }

end BMLoader

namespace BMLoader

/-! The optimization / merge decision engine (bmloader.js lines 218-1244):
`optimize`, `optimizeSafe`, `createMergedMesh`, `shouldAutoMerge`. -/

/-- A node of the built scene graph as the optimization engine sees it.
Geometry and material objects are external three.js collaborators; what the
engine reads from them are the signature strings produced by
`getGeometryKey`/`getSimpleGeometryKey` and `getMaterialKey`/
`getSimpleMaterialKey`, carried here directly as `geoKey`/`matKey`.
`varName` records the reverse identity lookup
`findVariableNameForObject(child)` (`none` for anonymous objects).
`instanced` is an `InstancedMesh` produced by an earlier optimization pass
(`isMesh` is true for it, as in three.js). -/
inductive SceneNode where
  | mesh (varName : Option String) (geoKey matKey : String)
  | instanced (geoKey matKey : String) (count : ℕ)
  | group (varName : Option String) (children : List SceneNode)

/-- What the mesh-collecting traversals record for each mesh. -/
structure MeshRec where
  varName : Option String
  geoKey : String
  matKey : String
deriving Repr, DecidableEq

/-- The slice of `RenderBasicModel` state that the optimization engine
reads: the scene-graph children, `bmDat.animations` (animation name to the
list of its instructions' target names) and the key set of
`bmDat.variables`. -/
structure OptModel where
  children : List SceneNode
  animations : List (String × List String)
  variableNames : List String := []

mutual

/-- `this.traverse((child) => { if (child.isMesh) ... })`: preorder walk
collecting every mesh. -/
def collectMeshes : SceneNode → List MeshRec
  | .mesh v g k => [⟨v, g, k⟩]
  | .instanced g k _ => [⟨none, g, k⟩]
  | .group _ cs => collectMeshesList cs

/-- Mesh collection over a child list, left to right. -/
def collectMeshesList : List SceneNode → List MeshRec
  | [] => []
  | n :: ns => collectMeshes n ++ collectMeshesList ns

end

/-- Group a list by a string key, preserving first-occurrence order of keys
and element order within a group (a JS `Map` populated by pushes). -/
def groupByKey (key : MeshRec → String) (xs : List MeshRec) : List (String × List MeshRec) :=
  xs.foldl (fun acc x =>
    match acc.find? (fun p => p.1 = key x) with
    | some _ => acc.map (fun p => if p.1 = key x then (p.1, p.2 ++ [x]) else p)
    | none => acc ++ [(key x, [x])]) []

/-- All animation-instruction target names of the model
(`for (const anim of animations) animatedObjects.add(anim.target)`). -/
def animTargets (m : OptModel) : List String :=
  (m.animations.map (fun p => p.2)).flatten

/-- Options of `optimize` (bmloader.js line 219).  Note there is no `dryRun`
flag and no explicit-allow flag on this strategy. -/
structure OptimizeOptions where
  instanceThreshold : ℕ := 3
  preserveAnimated : Bool := true
deriving Repr, DecidableEq

/-- `optimize(options)` (bmloader.js lines 218-349), the aggressive
instancing strategy.  It runs unconditionally: when any static mesh exists it
clears the children and rebuilds them as preserved animated meshes followed,
group by group, by either one `InstancedMesh` (group size at or above the
threshold) or the individual meshes.  The `userData`/variable re-pointing
bookkeeping of lines 305-318 has no observable effect on the graph shape and
is elided. -/
def optimize (m : OptModel) (opts : OptimizeOptions) : OptModel :=
  let animatedObjects := if opts.preserveAnimated then animTargets m else []
  let isAnimated : MeshRec → Bool := fun r =>
    match r.varName with
    | some v => animatedObjects.contains v
    | none => false
  let allMeshes := collectMeshesList m.children
  let animatedMeshes := allMeshes.filter isAnimated
  let staticMeshes := allMeshes.filter (fun r => ¬ isAnimated r)
  if staticMeshes.length = 0 then m
  else
    let instanceGroups := groupByKey (fun r => r.geoKey ++ "_" ++ r.matKey) staticMeshes
    let rebuilt : List SceneNode :=
      animatedMeshes.map (fun r => .mesh r.varName r.geoKey r.matKey) ++
      (instanceGroups.map (fun p =>
        match p.2 with
        | [] => []
        | r0 :: rest =>
          if p.2.length ≥ opts.instanceThreshold then
            [SceneNode.instanced r0.geoKey r0.matKey p.2.length]
          else
            (r0 :: rest).map (fun r => SceneNode.mesh r.varName r.geoKey r.matKey))).flatten
    { m with children := rebuilt }

/-- Options of `optimizeSafe` (bmloader.js line 357). -/
structure SafeOptions where
  instanceThreshold : ℕ := 2
  dryRun : Bool := true
  allowOptimization : Bool := false
deriving Repr, DecidableEq

/-- The analysis object returned by an `optimizeSafe` dry run
(bmloader.js lines 506-514). -/
structure SafeAnalysis where
  totalObjects : ℕ
  actuallyAnimatedObjects : ℕ
  optimizableObjects : ℕ
  potentialSavings : ℕ
  instanceGroups : ℕ
  hasAnimations : Bool
  safe : Bool
deriving Repr, DecidableEq

/-- The filter of line 372: a top-level child that is a mesh or has a direct
mesh child. -/
def topLevelMeshy : SceneNode → Bool
  | .mesh .. => true
  | .instanced .. => true
  | .group _ cs => cs.any (fun c => match c with
      | .mesh .. => true
      | .instanced .. => true
      | .group .. => false)

mutual

/-- The traversal of `optimizeSafe` (lines 404-467): each mesh paired with
its `isActuallyAnimated` flag.  A mesh is actually animated when animations
exist, it has a variable name, and either that name or a named ancestor's
name is an animation target (the ancestor walk of lines 418-429; `anc`
carries whether such an ancestor has been passed). -/
def collectSafe (targets : List String) (hasAnim : Bool) (anc : Bool) :
    SceneNode → List (MeshRec × Bool)
  | .mesh v g k =>
    let hit := match v with
      | some n => targets.contains n
      | none => false
    [(⟨v, g, k⟩, hasAnim && v.isSome && (hit || anc))]
  | .instanced g k _ => [(⟨none, g, k⟩, false)]
  | .group v cs =>
    let anc' := anc || (match v with
      | some n => targets.contains n
      | none => false)
    collectSafeList targets hasAnim anc' cs

/-- `collectSafe` over a child list. -/
def collectSafeList (targets : List String) (hasAnim : Bool) (anc : Bool) :
    List SceneNode → List (MeshRec × Bool)
  | [] => []
  | n :: ns => collectSafe targets hasAnim anc n ++ collectSafeList targets hasAnim anc ns

end

/-- `optimizeSafe(options)` (bmloader.js lines 356-527), the conservative
instancing strategy.  With `dryRun` it returns the analysis object; without
`dryRun` it either hits the safety gate (line 361) or, when allowed, only
logs — the execute path is not implemented (line 521), so the model is
returned unchanged on every path and only a dry run produces a value. -/
def optimizeSafe (m : OptModel) (opts : SafeOptions) : Option SafeAnalysis × OptModel :=
  if ¬ opts.dryRun ∧ ¬ opts.allowOptimization then (none, m)
  else
    let hasAnim := m.animations.length > 0
    let totalMeshes := (m.children.filter topLevelMeshy).length
    let adaptiveThreshold :=
      if totalMeshes ≤ 5 ∧ ¬ hasAnim then max 2 (opts.instanceThreshold / 2)
      else opts.instanceThreshold
    let targets := if hasAnim then animTargets m else []
    let infos := collectSafeList targets hasAnim false m.children
    let optimizable := (infos.filter (fun p => ¬ p.2)).map (fun p => p.1)
    let candidates := groupByKey (fun r => r.geoKey ++ "_" ++ r.matKey) optimizable
    let savings := (candidates.map (fun p =>
      if p.2.length ≥ adaptiveThreshold then p.2.length - 1 else 0)).sum
    let igroups := (candidates.filter (fun p => p.2.length ≥ adaptiveThreshold)).length
    if opts.dryRun then
      (some { totalObjects := infos.length,
              actuallyAnimatedObjects := (infos.filter (fun p => p.2)).length,
              optimizableObjects := optimizable.length,
              potentialSavings := savings,
              instanceGroups := igroups,
              hasAnimations := hasAnim,
              safe := savings > 0 }, m)
    else (none, m)

/-- Options of `createMergedMesh` (bmloader.js line 884). -/
structure MergeOptions where
  preserveUVs : Bool := true
  preserveColors : Bool := true
  dryRun : Bool := true
  allowMerging : Bool := false
deriving Repr, DecidableEq

/-- The `analysis` object of a merge result.  The vertex/face counts of the
source are sums over external three.js buffer attributes and are elided. -/
structure MergeAnalysis where
  originalDrawCalls : ℕ
  mergedDrawCalls : ℕ
  savings : ℕ
  materials : ℕ
deriving Repr, DecidableEq

/-- Return value of `createMergedMesh`: `undef` models the bare `return;`
of the safety gate (lines 888-891) and of the recheck at line 988;
`cannotMerge` models the structured `{canMerge: false, reason, ...}`
failures; `alreadyOptimal` the single-mesh short-circuit (lines 932-946);
`dryRunAnalysis` the dry-run report (lines 975-984); `mergeSuccess` the
executed merge (lines 1025-1033). -/
inductive MergeResult where
  | undef
  | cannotMerge (reason : String) (recommendation : Option String)
  | alreadyOptimal (analysis : MergeAnalysis)
  | dryRunAnalysis (analysis : MergeAnalysis)
  | mergeSuccess (finalDrawCalls : ℕ) (savings : ℕ)
deriving Repr, DecidableEq

/-- Distinct material keys in first-occurrence order (the `materialGroups`
map of lines 906-921). -/
def distinctMatKeys (ms : List MeshRec) : List String :=
  ms.foldl (fun acc r => if acc.contains r.matKey then acc else acc ++ [r.matKey]) []

/-- The meshes that replace the children after an executed merge: one merged
mesh per material bucket, a bucket with a single member keeping its original
mesh (`createMultiMaterialMerge`, lines 1096-1117; a single-material model
goes through `createSingleMaterialMerge` and yields one mesh, which is the
same shape with one bucket).  The merged geometry is freshly built by
`BufferGeometryUtils.mergeGeometries`; its key here is a deterministic tag. -/
def mergedChildren (ms : List MeshRec) : List SceneNode :=
  (distinctMatKeys ms).map (fun k =>
    match ms.filter (fun r => r.matKey = k) with
    | [r] => .mesh r.varName r.geoKey r.matKey
    | _ => .mesh none ("merged_" ++ k) k)

/-- `createMergedMesh(options)` (bmloader.js lines 883-1044), the full
geometry merge.  Control flow in source order: the safety gate (dry run not
requested and merging not allowed) returns undefined; a model with any
animation track list gets the structured `canMerge: false` refusal; then
mesh collection, the no-mesh and single-mesh short-circuits, the dry-run
analysis, and finally the executed merge that replaces all children. -/
def createMergedMesh (m : OptModel) (opts : MergeOptions) : MergeResult × OptModel :=
  if ¬ opts.dryRun ∧ ¬ opts.allowMerging then (.undef, m)
  else
    let hasAnimations := m.animations.length > 0
    if hasAnimations then
      (.cannotMerge "Model has animations"
        (some "Only use merging on completely static models"), m)
    else
      let meshes := collectMeshesList m.children
      if meshes.length = 0 then
        (.cannotMerge "No meshes found to merge" none, m)
      else if meshes.length = 1 then
        (.alreadyOptimal { originalDrawCalls := 1, mergedDrawCalls := 1,
                           savings := 0, materials := 1 }, m)
      else
        let mats := (distinctMatKeys meshes).length
        let canMergeAll := mats = 1
        let analysis : MergeAnalysis :=
          { originalDrawCalls := meshes.length,
            mergedDrawCalls := if canMergeAll then 1 else mats,
            savings := meshes.length - (if canMergeAll then 1 else mats),
            materials := mats }
        if opts.dryRun then (.dryRunAnalysis analysis, m)
        else if ¬ opts.allowMerging then (.undef, m)
        else
          let newChildren := mergedChildren meshes
          (.mergeSuccess newChildren.length (meshes.length - newChildren.length),
           { m with children := newChildren })

/-- Usage context of `shouldAutoMerge` (bmloader.js lines 748-753). -/
structure AutoMergeContext where
  instanceCount : ℚ := 1
  isStatic : Option Bool := none
  allowBreaking : Bool := false
  performanceThreshold : ℚ := 1/2
deriving Repr, DecidableEq

/-- The decision object of `shouldAutoMerge`; the human-readable `risks` and
`reasoning` arrays are elided. -/
structure AutoMergeDecision where
  shouldMerge : Bool
  confidence : ℚ
  riskLevel : String
  reason : Option String := none
deriving Repr, DecidableEq

/-- `canMerge` of a merge result (`!mergeAnalysis.canMerge`, line 762). -/
def mergeResultCanMerge : MergeResult → Bool
  | .cannotMerge .. => false
  | .undef => false
  | _ => true

/-- `reason` field of a merge result. -/
def mergeReason : MergeResult → Option String
  | .cannotMerge r _ => some r
  | _ => none

/-- `mergeAnalysis.analysis.savings || 0` (line 771). -/
def mergeSavings : MergeResult → ℕ
  | .alreadyOptimal a => a.savings
  | .dryRunAnalysis a => a.savings
  | _ => 0

/-- `mergeAnalysis.analysis.originalDrawCalls || 0` (line 772). -/
def mergeOriginalDrawCalls : MergeResult → ℕ
  | .alreadyOptimal a => a.originalDrawCalls
  | .dryRunAnalysis a => a.originalDrawCalls
  | _ => 0

/-- `shouldAutoMerge(context)` (bmloader.js lines 747-874), the auto-merge
advisor.  It consults `createMergedMesh({dryRun: true})`; when that reports
`canMerge: false` (which includes every model with animations) it returns
early with `riskLevel: 'none'`.  Past that point `hasAnimations` is
necessarily false, so the `'critical'` risk branches are unreachable.
The division `0/0` (an empty usage context with `instanceCount: 0`) is NaN
in JS and `0` here; both fail the `>= performanceThreshold` test for the
positive thresholds callers use. -/
def shouldAutoMerge (m : OptModel) (ctx : AutoMergeContext) : AutoMergeDecision × OptModel :=
  let hasAnim := m.animations.length > 0
  let totalVars := m.variableNames.length
  let mergeAnalysis := (createMergedMesh m { dryRun := true }).1
  if ¬ mergeResultCanMerge mergeAnalysis then
    ({ shouldMerge := false, confidence := 1, riskLevel := "none",
       reason := mergeReason mergeAnalysis }, m)
  else
    let drawCallSavings : ℚ := mergeSavings mergeAnalysis
    let odc : ℚ := mergeOriginalDrawCalls mergeAnalysis
    let riskLevel := if hasAnim then "critical" else "low"
    let riskLevel :=
      if hasAnim ∧ totalVars > 15 then "critical"
      else if ¬ hasAnim ∧ totalVars > 30 then "medium"
      else riskLevel
    let gain := (drawCallSavings * ctx.instanceCount) / (odc * ctx.instanceCount)
    let isWorthwhile := gain ≥ ctx.performanceThreshold
    let p : Bool × ℚ :=
      if riskLevel = "critical" then (false, 1)
      else if ctx.instanceCount ≥ 50 ∧ odc > 3 then (true, 95/100)
      else if ctx.instanceCount ≥ 10 ∧ drawCallSavings > 2 then (true, 85/100)
      else if ctx.instanceCount ≥ 5 ∧ odc ≥ 5 ∧ ctx.isStatic ≠ some false then (true, 75/100)
      else if ctx.instanceCount ≥ 3 ∧ odc ≥ 8 ∧ ¬ hasAnim then (true, 7/10)
      else if riskLevel = "medium" ∧ ¬ ctx.allowBreaking then (false, 6/10)
      else (false, 1/2)
    let sm := if ctx.allowBreaking ∧ isWorthwhile then true else p.1
    ({ shouldMerge := sm, confidence := p.2, riskLevel := riskLevel }, m)

end BMLoader

namespace BMLoader

/-! The geometry cache and the instruction operations on nodes
(bmloader.js: `createBoxOperation` lines 1885-1921, `createSphereOperation`
lines 1675-1715, `bottomAlign` lines 1625-1633, transform operations lines
2234-2396). -/

/-- A plain rational xyz triple (the `geoTranslate` offset and node
transform fields in well-formed scripts). -/
structure Vec3Q where
  x : ℚ := 0
  y : ℚ := 0
  z : ℚ := 0
deriving Repr, DecidableEq

/-- A three.js geometry as the interpreter observes it: the constructor
parameters and the cumulative offset that `geometry.translate` has applied
to its vertex data. -/
structure Geometry where
  shape : String
  params : List ℚ
  offset : Vec3Q
deriving Repr, DecidableEq

/-- The mutable global geometry store: `storedGeometries` maps the canonical
key string to a geometry handle; handles index `geoHeap`, so that two nodes
holding the same handle share (and see mutations of) one geometry object. -/
structure BuildState where
  geoHeap : List Geometry := []
  storedGeometries : List (String × ℕ) := []
deriving Repr, DecidableEq

/-- Deterministic stand-in for JS number-to-string coercion in cache keys.
Only its determinism matters for the cache-sharing direction proved here:
identical parameters produce identical key strings. -/
def qKeyStr (q : ℚ) : String :=
  if q.den = 1 then toString q.num else toString q.num ++ "." ++ toString q.den

/-- String form of a resolved parameter as JS string concatenation sees it. -/
def jsValKeyStr : JSVal → String
  | .num q => qKeyStr q
  | .nan => "NaN"
  | .str s => s
  | .obj i => "obj" ++ qKeyStr i

/-- Numeric view of a resolved parameter as a three.js geometry constructor
consumes it (well-formed scripts resolve parameters to numbers). -/
def jsValNum (v : JSVal) : ℚ := (jsNumberConv v).getD 0

/-- `storedGeometries[geoName]` lookup. -/
def cacheLookup (st : BuildState) (k : String) : Option ℕ :=
  (st.storedGeometries.find? (fun p => p.1 = k)).map (fun p => p.2)

/-- Shared body of the primitive-creation cache protocol (bmloader.js lines
1693-1705 for spheres, 1899-1911 for boxes): build the canonical key from
the shape tag, the resolved parameters, and the active geometry-translate
offset; reuse the stored geometry on a hit, otherwise construct the
geometry, translate it by the offset, and store it under the key. -/
def createCachedGeometry (shape : String) (resolved : List JSVal)
    (geoTranslate : Vec3Q) (st : BuildState) : ℕ × BuildState :=
  let geoName := (resolved.map jsValKeyStr).foldl (fun a s => a ++ "." ++ s) shape
      ++ "." ++ qKeyStr geoTranslate.x ++ "." ++ qKeyStr geoTranslate.y
      ++ "." ++ qKeyStr geoTranslate.z
  match cacheLookup st geoName with
  | some gid => (gid, st)
  | none =>
    let gid := st.geoHeap.length
    (gid, { geoHeap := st.geoHeap ++
              [{ shape := shape, params := resolved.map jsValNum, offset := geoTranslate }],
            storedGeometries := st.storedGeometries ++ [(geoName, gid)] })

/-- `createBoxOperation` (bmloader.js lines 1885-1921), restricted to its
geometry-cache effect: with at least three parameters it resolves them
through `getModValue` and creates or reuses the cached `BoxGeometry`;
material setup and mesh attachment are external to the cache.  With fewer
parameters it creates nothing. -/
def createBoxOperation (parts : List JSVal) (vars : List (String × JSVal))
    (geoTranslate : Vec3Q) (st : BuildState) : Option ℕ × BuildState :=
  if 3 ≤ parts.length then
    let resolved := (parts.take 3).map (getModValueTop vars)
    let p := createCachedGeometry "box" resolved geoTranslate st
    (some p.1, p.2)
  else (none, st)

/-- `createSphereOperation` (bmloader.js lines 1675-1715), restricted to its
geometry-cache effect, analogously to `createBoxOperation`. -/
def createSphereOperation (parts : List JSVal) (vars : List (String × JSVal))
    (geoTranslate : Vec3Q) (st : BuildState) : Option ℕ × BuildState :=
  if 3 ≤ parts.length then
    let resolved := (parts.take 3).map (getModValueTop vars)
    let p := createCachedGeometry "sphere" resolved geoTranslate st
    (some p.1, p.2)
  else (none, st)

/-- `geometry.computeBoundingBox()` followed by reading `boundingBox.min.y`,
evaluated from the vertex data; modelled for the primitives used here (a box
of size `[sx, sy, sz]` spans `-sy/2 .. sy/2` before translation, a sphere of
radius `r` spans `-r .. r`). -/
def geoMinY (g : Geometry) : ℚ :=
  (if g.shape = "box" then
    match g.params with
    | _ :: sy :: _ => -(sy / 2)
    | _ => 0
  else if g.shape = "sphere" then
    match g.params with
    | r :: _ => -r
    | _ => 0
  else 0) + g.offset.y

/-- The `bottomAlign()` modifier (bmloader.js lines 1625-1633): compute the
bounding box of the current object's geometry and `geometry.translate(0,
-bbox.min.y, 0)` — an in-place mutation of the (possibly cached and shared)
geometry's vertex data. -/
def bottomAlign (gid : ℕ) (st : BuildState) : BuildState :=
  match st.geoHeap.get? gid with
  | none => st
  | some g =>
    let offY := - geoMinY g
    let g' : Geometry := { g with offset := { g.offset with y := g.offset.y + offY } }
    { st with geoHeap := st.geoHeap.set gid g' }

/-- A drawable node of the builder: the geometry handle it references plus
its own transform (`position`/`rotation`/`scale` of the three.js mesh). -/
structure BuildNode where
  geoId : Option ℕ := none
  position : Vec3Q := {}
  rotation : Vec3Q := {}
  scale : Vec3Q := { x := 1, y := 1, z := 1 }
deriving Repr, DecidableEq

/-- `doPositionOperation` (bmloader.js lines 2234-2259 region): with at
least three arguments, resolve them and `position.set(x, y, z)` on the node.
The geometry store is passed through untouched, as the source function never
references `storedGeometries`. -/
def doPositionOperation (args : List JSVal) (vars : List (String × JSVal))
    (n : BuildNode) (st : BuildState) : BuildNode × BuildState :=
  if 3 ≤ args.length then
    match args with
    | a :: b :: c :: _ =>
      ({ n with position :=
          { x := jsValNum (getModValueTop vars a),
            y := jsValNum (getModValueTop vars b),
            z := jsValNum (getModValueTop vars c) } }, st)
    | _ => (n, st)
  else (n, st)

/-- `doRotateOperation` (bmloader.js lines 2302-2327): resolve three
arguments, convert each from degrees to radians, `rotation.set(...)`. -/
def doRotateOperation (args : List JSVal) (vars : List (String × JSVal))
    (n : BuildNode) (st : BuildState) : BuildNode × BuildState :=
  if 3 ≤ args.length then
    match args with
    | a :: b :: c :: _ =>
      ({ n with rotation :=
          { x := degToRad (jsValNum (getModValueTop vars a)),
            y := degToRad (jsValNum (getModValueTop vars b)),
            z := degToRad (jsValNum (getModValueTop vars c)) } }, st)
    | _ => (n, st)
  else (n, st)

/-- `doScaleOperation` (bmloader.js lines 2371-2396): resolve three
arguments, `scale.set(x, y, z)`. -/
def doScaleOperation (args : List JSVal) (vars : List (String × JSVal))
    (n : BuildNode) (st : BuildState) : BuildNode × BuildState :=
  if 3 ≤ args.length then
    match args with
    | a :: b :: c :: _ =>
      ({ n with scale :=
          { x := jsValNum (getModValueTop vars a),
            y := jsValNum (getModValueTop vars b),
            z := jsValNum (getModValueTop vars c) } }, st)
    | _ => (n, st)
  else (n, st)

/-! The opacity operation (bmloader.js `doOpacityOperation`, lines
2329-2369). -/

/-- The material state `doOpacityOperation` touches. -/
structure JSMaterial where
  opacity : ℚ := 1
  transparent : Bool := false
deriving Repr, DecidableEq

/-- A node's `material` slot: absent, a single material, or an array. -/
inductive MaterialSlot where
  | noMat
  | single (m : JSMaterial)
  | array (ms : List JSMaterial)
deriving Repr, DecidableEq

/-- Remove the first occurrence of a character from a character list
(JS `String.replace` with a one-character pattern). -/
def removeFirstChar (c : Char) : List Char → List Char
  | [] => []
  | d :: rest => if d = c then rest else d :: removeFirstChar c rest

/-- `code.replace("opacity(", "").replace(")", "")`: at the dispatch site the
instruction starts with `opacity(`, so the first replace strips that prefix,
and the second removes the first `)`. -/
def stripOpacityCall (code : String) : String :=
  let cs := code.toList
  let without :=
    if cs.take 8 = "opacity(".toList then cs.drop 8 else cs
  String.mk (removeFirstChar ')' without)

/-- `doOpacityOperation(id, code, renderModel)` (bmloader.js lines
2329-2369), acting on the resolved node's material slot: `parseInt` the
argument, default 1 on NaN, clamp into `[0, 1]`, assign the opacity and set
`transparent = true` on the single material or on every member of a
material array. -/
def doOpacityOperation (code : String) (mat : MaterialSlot) : MaterialSlot :=
  let raw := stripOpacityCall code
  let opVal : ℤ := match parseIntJS raw with
    | none => 1
    | some v => v
  let opVal := if opVal < 0 then 0 else opVal
  let opVal := if opVal > 1 then 1 else opVal
  match mat with
  | .noMat => .noMat
  | .single mm => .single { mm with opacity := (opVal : ℚ), transparent := true }
  | .array ms => .array (ms.map (fun mm =>
      { mm with opacity := (opVal : ℚ), transparent := true }))

/-- Materials carried by a slot. -/
def matsOf : MaterialSlot → List JSMaterial
  | .noMat => []
  | .single m => [m]
  | .array ms => ms

/-! Decimal numerals, for stating that `parseInt` truncates fractional
arguments toward zero. -/

/-- The character of a decimal digit. -/
def digitChar (d : Fin 10) : Char := Char.ofNat (48 + d)

/-- Value of a digit list read as an integer part (most significant first). -/
def natOfFins (ds : List (Fin 10)) : ℕ := ds.foldl (fun a d => a * 10 + Fin.val d) 0

/-- Value of a digit list read as a fractional part. -/
def fracOfFins (ds : List (Fin 10)) : ℚ := ds.foldr (fun d a => ((d : ℚ) + a) / 10) 0

/-- Render a signed decimal numeral `[-]intDigits[.fracDigits]`. -/
def renderDec (neg : Bool) (ip fp : List (Fin 10)) : String :=
  String.mk ((if neg then ['-'] else []) ++ ip.map digitChar ++
    (if fp = [] then [] else '.' :: fp.map digitChar))

/-- The rational value of a rendered decimal numeral. -/
def decValue (neg : Bool) (ip fp : List (Fin 10)) : ℚ :=
  (if neg then -1 else 1) * ((natOfFins ip : ℚ) + fracOfFins fp)

/-- JS truncation toward zero (the integer `parseInt` extracts from a
decimal numeral; `-0` collapses to `0` as an integer). -/
def jsTrunc (q : ℚ) : ℤ := if 0 ≤ q then ⌊q⌋ else -⌊-q⌋

/-! The reset replay loop (bmloader.js `resetRenderModel`, lines 2691-2713)
and the behaviour of one replayed `negotiateInstructionLine` call (lines
1495-1673).  `resetRenderModel` passes no `loader` argument (line 2706), so
`loader` is `undefined` inside every replayed call. -/

/-- Whether `negotiateInstructionLine` records a line into
`bmDat._scriptLines` (line 1503): everything except blank lines and `//`
comments (line 1496). -/
def recordsLine (l : String) : Bool :=
  ¬ (l.trim.startsWith "//") ∧ ¬ (l.trim = "")

/-- JS `String.split` on a one-character separator (as used on `=` at line
1512 and on `>` at line 1518): splits at every occurrence, keeping empty
pieces. -/
def splitOnCharAux (c : Char) (acc : List Char) : List Char → List String
  | [] => [String.mk acc.reverse]
  | d :: rest =>
    if d = c then String.mk acc.reverse :: splitOnCharAux c [] rest
    else splitOnCharAux c (d :: acc) rest

/-- JS `s.split(c)` for a one-character separator `c`. -/
def jsSplit (c : Char) (s : String) : List String := splitOnCharAux c [] s.toList

/-- The keywords of the `ops` dispatch table (lines 1579-1601) whose
operation functions read `loader.defMaterial` unconditionally before doing
anything else (lines 1685, 1804, 1843, 1891, 1929, 1979, 2072, 2114, 2757):
called with `loader` undefined, each throws a TypeError.  `empty()` and
`decal(` are dispatched too but do not touch `loader` at their head. -/
def loaderOpKeywords : List String :=
  ["sphere(", "torus(", "box(", "cone(", "cylinder(", "capsule(", "shape(",
   "plane(", "lathe("]

/-- The `mod` loop of `negotiateInstructionLine` (lines 1526-1673) as run
with `loader` undefined: `true` when some `mod` dispatches into an operation
that dereferences the absent `loader`, i.e. when the call throws a
TypeError.  The Bool argument tracks whether an animation name is active
(truthy `usingAni`): after an `@` mod it is active exactly when the name
after `@` is nonempty (`animations[""]` can never have been defined, since
defining a track requires a truthy `usingAni`); while a name is active,
non-`$`/`@` mods are animation definitions (line 1558) and `continue`.
`$` references, grouping, and the post-dispatch branches (`add($`,
`material(`, `bottomAlign()`, transforms, ...) also `continue` without
touching `loader`. -/
def modLoopThrows : Bool → List String → Bool
  | _, [] => false
  | hasAni, m :: rest =>
    let mod := m.trim
    if mod = "" then modLoopThrows hasAni rest
    else if mod.startsWith "$" then modLoopThrows hasAni rest
    else if mod.startsWith "@" then
      modLoopThrows (!(String.mk (removeFirstChar '@' mod.toList) == "")) rest
    else if hasAni then modLoopThrows hasAni rest
    else if mod = "startgroup()" ∨ mod = "endgroup()" then modLoopThrows hasAni rest
    else if loaderOpKeywords.any (fun k => mod.startsWith k) then true
    else modLoopThrows hasAni rest

/-- What one replayed `negotiateInstructionLine(line, renderModel,
currentGroup)` call does, as observed by the replay loop: whether the line
was pushed back onto `_scriptLines`, and whether the call then threw. -/
structure BodyEffect where
  pushed : Bool
  throws : Bool
deriving Repr, DecidableEq

/-- One replayed `negotiateInstructionLine` call with `loader` undefined
(lines 1495-1673).  Comments and blank lines return before the push (line
1496).  Every other line is pushed first (line 1503, before anything can
throw).  A `$name = literal` assignment (lines 1512-1524: two `=` pieces,
the first starting with `$` and nonempty after stripping it, a single `mod`
without `(` not starting with `@`) stores the variable and returns before
the `mod` loop; otherwise the `mod` loop runs and throws iff it dispatches
into a `loader`-dereferencing operation. -/
def replayBody (line : String) : BodyEffect :=
  if ¬ recordsLine line then ⟨false, false⟩
  else
    let assignments := jsSplit '=' line
    let a0 := ((assignments.get? 0).getD "").trim
    let hasVar := assignments.length == 2 && a0.startsWith "$"
    let usingVar := String.mk (removeFirstChar '$' a0.toList)
    let codeParts := if hasVar then ((assignments.get? 1).getD "").trim else line
    let modParts := jsSplit '>' codeParts
    let m0 := (modParts.get? 0).getD ""
    if modParts.length == 1 && (hasVar && !(usingVar == "")) &&
        !(m0.toList.contains '(') && !(m0.startsWith "@") then
      ⟨true, false⟩
    else
      ⟨true, modLoopThrows false modParts⟩

/-- The replay loop's state: still iterating (iterator index, array), or
aborted by an uncaught exception from the body (the array as it stood when
the exception was raised — the push precedes the throw). -/
inductive ReplayState where
  | running (i : ℕ) (arr : List String)
  | faulted (arr : List String)
deriving Repr, DecidableEq

/-- One iteration of `for (const line of renderModel.bmDat._scriptLines)`
inside `resetRenderModel`: a JS array iterator re-checks `index < length`
on every step; the body pushes the replayed line back onto the same
`_scriptLines` array (and may throw, which aborts the loop — the `await`ed
rejection propagates out of `resetRenderModel`). -/
def replayStep : ReplayState → ReplayState
  | .running i arr =>
    if h : i < arr.length then
      let line := arr.get ⟨i, h⟩
      let eff := replayBody line
      let arr' := if eff.pushed then arr ++ [line] else arr
      if eff.throws then .faulted arr' else .running (i + 1) arr'
    else .running i arr
  | .faulted arr => .faulted arr

/-- The replay loop state after `k` iterations, starting from the recorded
script lines. -/
def replayState (init : List String) : ℕ → ReplayState
  | 0 => .running 0 init
  | k + 1 => replayStep (replayState init k)

/-- The `for...of` loop has completed normally: the iterator reached the
(current) array length without an exception. -/
def replayLoopDone : ReplayState → Bool
  | .running i arr => decide (arr.length ≤ i)
  | .faulted _ => false

end BMLoader

namespace BMLoader

/-! Theorems.  Shared helper lemmas come first; each claim then gets one
theorem (with a counterexample and/or witness where required). -/

/-- Whether a merge result is a structured failure object carrying
`canMerge: false` (as opposed to the safety gate's bare `return;`). -/
def isStructuredRefusal : MergeResult → Bool
  | .cannotMerge .. => true
  | _ => false

/-- On a model with at least one animation track list, `createMergedMesh`
returns the structured `canMerge: false` refusal and leaves the model
untouched, provided the call gets past the safety gate (a dry run, or
merging explicitly allowed). -/
theorem createMergedMesh_of_animations (m : OptModel) (opts : MergeOptions)
    (hanim : m.animations ≠ []) (hgate : opts.dryRun = true ∨ opts.allowMerging = true) :
    createMergedMesh m opts =
      (.cannotMerge "Model has animations"
        (some "Only use merging on completely static models"), m) := by
  have hlen : 0 < m.animations.length := List.length_pos.mpr hanim
  rcases hgate with h | h <;>
    simp [createMergedMesh, h, hlen]

/-- A model with one animation track list, used as the concrete animated
model in several counterexamples. -/
def animatedModel : OptModel :=
  { children := [.mesh (some "a") "gBox" "mRed"],
    animations := [("spin", ["a"])],
    variableNames := ["a"] }

/-- C1, counterexample: on the animated model, a call with `dryRun: false`
and `allowMerging: false` hits the safety gate first and returns `undefined`
— not the structured `canMerge: false` failure object the claim promises for
every invocation. -/
theorem c1_counterexample :
    (createMergedMesh animatedModel { dryRun := false, allowMerging := false }).1
        = .undef ∧
    isStructuredRefusal
        (createMergedMesh animatedModel { dryRun := false, allowMerging := false }).1
        = false ∧
    (createMergedMesh animatedModel { dryRun := false, allowMerging := false }).2
        = animatedModel := by
  refine ⟨?_, ?_, ?_⟩ <;> with_unfolding_all rfl

/-- C1 (amended): for every model with at least one animation track list,
`createMergedMesh` called as a dry run or with merging explicitly allowed
returns the structured failure `{canMerge: false, reason: 'Model has
animations', ...}` rather than raising, and leaves the scene graph
unchanged; a call with `dryRun: false` and `allowMerging: false` instead
returns `undefined` at the safety gate (also without mutating anything). -/
theorem c1_merge_refuses_animated (m : OptModel) (opts : MergeOptions)
    (hanim : m.animations ≠ [])
    (hgate : opts.dryRun = true ∨ opts.allowMerging = true) :
    createMergedMesh m opts =
      (.cannotMerge "Model has animations"
        (some "Only use merging on completely static models"), m) :=
  createMergedMesh_of_animations m opts hanim hgate

/-- C1, witness. -/
theorem c1_merge_refuses_animated_witness :
    createMergedMesh animatedModel {} =
      (.cannotMerge "Model has animations"
        (some "Only use merging on completely static models"), animatedModel) :=
  c1_merge_refuses_animated animatedModel {} (by decide) (Or.inl rfl)

/-- The non-active track `b` of the C4 scenario: its single instruction has
its step cursor at 1. -/
def c4InstB : RenderAnimation :=
  { target := "o", action := "positionX", speed := .num 1,
    steps := [.num 5, .num 6], step := 1 }

/-- C4 scenario: track `a` (empty) is active, track `b` is not. -/
def c4Model : AnimModel :=
  { objects := [{}],
    variableMap := [("o", .obj 0)],
    animations := [("a", { insts := [] }), ("b", { insts := [c4InstB] })],
    animation := some "a",
    lastAnimation := some "a" }

/-- C4: after a tick with `a` active, the non-active track `b` keeps its
instruction's step cursor at 1 — `animateModel` only set the `step` expando
property on the track-list array itself (`arrayStep = 0`).  The same holds
on a tick with no active animation.  The claim (and the spec) says every
instruction's cursor is reset to 0; the code's `ani.step = 0` writes to the
array object, a slip that never touches `inst.step`. -/
theorem c4_step_cursor_not_reset :
    (((animateModel c4Model 1).animations.find? (fun p => p.1 = "b")).map
        (fun p => (p.2.insts.map (fun i => i.step), p.2.arrayStep))
      = some ([1], some 0)) ∧
    (((animateModel { c4Model with animation := none, lastAnimation := none } 1).animations.find?
        (fun p => p.1 = "b")).map
        (fun p => (p.2.insts.map (fun i => i.step), p.2.arrayStep))
      = some ([1], some 0)) := by
  constructor <;> with_unfolding_all rfl

/-- If a line is recorded by `negotiateInstructionLine`, the reset replay
loop's state after `k` iterations over a one-line script whose body pushes
and completes normally is the iterator at `k` with the array grown to
`k + 1` copies of the line: every iteration appends the line just replayed,
so the iterator never catches up with the length. -/
theorem replayState_singleton (l : String) (hl : replayBody l = ⟨true, false⟩) (k : ℕ) :
    replayState [l] k = .running k (List.replicate (k + 1) l) := by
  induction k with
  | zero => simp [replayState]
  | succ k ih =>
    have hlt : k < (List.replicate (k + 1) l).length := by
      simp
    simp [replayState, ih, replayStep, hlt, hl, List.getElem_replicate,
      ← List.replicate_succ' (n := k + 1)]

/-- C7: the `for...of` replay loop inside `resetRenderModel` never
reproduces the original graph, on either kind of recorded script.  On
`["$x=5"]` (a variable assignment, which `negotiateInstructionLine` pushes
back at line 1503 and then stores, touching no `loader`), the loop never
completes: after every number of iterations `k` the iterator index `k` is
still strictly below the array length `k + 1`, because each replayed line
is pushed back onto the `_scriptLines` array the loop is iterating.  On
`["box(1,1,1)"]`, the first iteration pushes the duplicate line and then
throws a TypeError — `resetRenderModel` passes no `loader` (line 2706) and
`createBoxOperation` dereferences `loader.defMaterial` (line 1891) — so the
loop aborts with the script corrupted to two copies of the line. -/
theorem c7_reset_replay_never_terminates (k : ℕ) :
    (replayState ["$x=5"] k = .running k (List.replicate (k + 1) "$x=5") ∧
     replayLoopDone (replayState ["$x=5"] k) = false) ∧
    replayState ["box(1,1,1)"] 1 = .faulted ["box(1,1,1)", "box(1,1,1)"] := by
  have h := replayState_singleton "$x=5" (by with_unfolding_all rfl) k
  refine ⟨⟨h, ?_⟩, ?_⟩
  · simp [h, replayLoopDone]
  · with_unfolding_all rfl

end BMLoader

namespace BMLoader

/-- C2, counterexample: on a model with an animation track list, the
auto-merge advisor reports `riskLevel: 'none'`, not `'critical'` — the
dry-run merge analysis already returns `canMerge: false` for animated
models, so `shouldAutoMerge` takes its early return before the risk
assessment, and the `'critical'` branch is unreachable. -/
theorem c2_counterexample :
    (shouldAutoMerge animatedModel {}).1.riskLevel = "none" ∧
    (shouldAutoMerge animatedModel {}).1.riskLevel ≠ "critical" ∧
    (shouldAutoMerge animatedModel {}).1.shouldMerge = false := by
  refine ⟨?_, ?_, ?_⟩
  · with_unfolding_all rfl
  · with_unfolding_all decide
  · with_unfolding_all rfl

/-- C2 (amended): for every usage context, a model with at least one
animation track list makes `shouldAutoMerge` return `riskLevel: 'none'`
(with `shouldMerge: false`, via the merge-analysis early return); a model
with no animation track lists never yields `riskLevel: 'critical'`. -/
theorem c2_advisor_risk_level (m : OptModel) (ctx : AutoMergeContext) :
    (m.animations ≠ [] → (shouldAutoMerge m ctx).1.riskLevel = "none") ∧
    (m.animations = [] → (shouldAutoMerge m ctx).1.riskLevel ≠ "critical") := by
  constructor
  · intro hanim
    have h := createMergedMesh_of_animations m { dryRun := true } hanim (Or.inl rfl)
    simp [shouldAutoMerge, h, mergeResultCanMerge]
  · intro hanim
    have hlen : m.animations.length = 0 := by simp [hanim]
    unfold shouldAutoMerge
    simp only [hlen]
    by_cases hc : mergeResultCanMerge (createMergedMesh m { dryRun := true }).1
    · simp only [hc]
      norm_num
      split_ifs <;> simp
    · simp [hc]

/-- C2, witness. -/
theorem c2_advisor_risk_level_witness :
    ((shouldAutoMerge animatedModel {}).1.riskLevel = "none") ∧
    ((shouldAutoMerge { children := [], animations := [] } {}).1.riskLevel ≠ "critical") :=
  ⟨(c2_advisor_risk_level animatedModel {}).1 (by decide),
   (c2_advisor_risk_level { children := [], animations := [] } {}).2 rfl⟩

end BMLoader

namespace BMLoader

/-- Three identical anonymous static meshes, no animations: the concrete
model the aggressive instancing strategy rewrites. -/
def staticTriple : OptModel :=
  { children := [.mesh none "gBox" "mGrey", .mesh none "gBox" "mGrey",
                 .mesh none "gBox" "mGrey"],
    animations := [] }

/-- C3, counterexample: `optimize` (the aggressive instancing strategy) has
no `dryRun` flag at all, and a plain `optimize({})` call — with no opt-in
flag of any kind — rewrites the scene graph: three identical static meshes
become a single instanced mesh.  This refutes the claim that in every one of
the four strategies `dryRun` defaults to true and no mutation happens
without the explicit opt-in flag. -/
theorem c3_counterexample :
    (optimize staticTriple {}).children = [.instanced "gBox" "mGrey" 3] ∧
    staticTriple.children.length = 3 ∧
    (optimize staticTriple {}).children.length = 1 := by
  refine ⟨?_, ?_, ?_⟩ <;> with_unfolding_all rfl

set_option maxHeartbeats 1600000 in
/-- C3 (amended): only `optimizeSafe` and `createMergedMesh` carry a
`dryRun` flag, and it defaults to true in both; `optimizeSafe` never mutates
the graph on any path (its execute path is unimplemented), `createMergedMesh`
never mutates unless `allowMerging` is passed, and `shouldAutoMerge` (which
has no `dryRun` flag) never mutates; but `optimize` has neither a `dryRun`
nor an opt-in flag and rewrites the graph unconditionally — e.g. any three
identical anonymous static meshes become one instanced mesh under its
default options. -/
theorem c3_dry_run_gating :
    (({} : SafeOptions).dryRun = true ∧ ({} : MergeOptions).dryRun = true) ∧
    (∀ (m : OptModel) (opts : SafeOptions), (optimizeSafe m opts).2 = m) ∧
    (∀ (m : OptModel) (opts : MergeOptions), opts.allowMerging = false →
      (createMergedMesh m opts).2 = m) ∧
    (∀ (m : OptModel) (ctx : AutoMergeContext), (shouldAutoMerge m ctx).2 = m) ∧
    (∀ g k : String,
      (optimize { children := [.mesh none g k, .mesh none g k, .mesh none g k],
                  animations := [], variableNames := [] } {}).children
        = [.instanced g k 3]) := by
  refine ⟨⟨rfl, rfl⟩, ?_, ?_, ?_, ?_⟩
  · intro m opts
    unfold optimizeSafe
    simp only []
    split_ifs <;> rfl
  · intro m opts h
    unfold createMergedMesh
    simp only []
    split_ifs <;> first | rfl | exact absurd (‹opts.allowMerging = true›) (by simp [h])
  · intro m ctx
    unfold shouldAutoMerge
    simp only []
    split_ifs <;> rfl
  · intro g k
    simp [optimize, animTargets, collectMeshesList, collectMeshes, groupByKey]

/-- C3, witness. -/
theorem c3_dry_run_gating_witness :
    (createMergedMesh staticTriple { dryRun := false }).2 = staticTriple ∧
    (optimize { children := [.mesh none "gBox" "mGrey", .mesh none "gBox" "mGrey",
                             .mesh none "gBox" "mGrey"],
                animations := [], variableNames := [] } {}).children
      = [.instanced "gBox" "mGrey" 3] :=
  ⟨c3_dry_run_gating.2.2.1 staticTriple { dryRun := false } rfl,
   c3_dry_run_gating.2.2.2.2 "gBox" "mGrey"⟩

end BMLoader

namespace BMLoader

/-- Creating a primitive geometry twice with identical shape, resolved
parameters and geometry-translate offset is stable: the second creation is a
cache hit that returns the same handle and leaves the store untouched. -/
theorem createCachedGeometry_stable (shape : String) (resolved : List JSVal)
    (gt : Vec3Q) (st : BuildState) :
    createCachedGeometry shape resolved gt (createCachedGeometry shape resolved gt st).2 =
      createCachedGeometry shape resolved gt st := by
  unfold createCachedGeometry
  simp only []
  cases h : cacheLookup st ((resolved.map jsValKeyStr).foldl (fun a s => a ++ "." ++ s) shape
      ++ "." ++ qKeyStr gt.x ++ "." ++ qKeyStr gt.y ++ "." ++ qKeyStr gt.z) with
  | some gid => simp [h]
  | none =>
    simp only [h]
    have h2 : cacheLookup
        { geoHeap := st.geoHeap ++
            [{ shape := shape, params := resolved.map jsValNum, offset := gt }],
          storedGeometries := st.storedGeometries ++
            [((resolved.map jsValKeyStr).foldl (fun a s => a ++ "." ++ s) shape
              ++ "." ++ qKeyStr gt.x ++ "." ++ qKeyStr gt.y ++ "." ++ qKeyStr gt.z,
              st.geoHeap.length)] }
        ((resolved.map jsValKeyStr).foldl (fun a s => a ++ "." ++ s) shape
          ++ "." ++ qKeyStr gt.x ++ "." ++ qKeyStr gt.y ++ "." ++ qKeyStr gt.z)
        = some st.geoHeap.length := by
      unfold cacheLookup at h ⊢
      rw [List.find?_append]
      simp_all
      exact ⟨_, Or.inr ⟨h, rfl⟩⟩
    simp [h2]

/-- C8: a well-formed `box(...)` or `sphere(...)` instruction (at least
three parameters) repeated with identical raw parameters, identical variable
bindings and the same active geometry-translate offset returns the very same
geometry handle on the second creation and leaves the cache state unchanged
— hence every subsequent identical creation returns that handle too. -/
theorem c8_cache_returns_same_handle (parts : List JSVal)
    (vars : List (String × JSVal)) (gt : Vec3Q) (st : BuildState)
    (h : 3 ≤ parts.length) :
    (createBoxOperation parts vars gt (createBoxOperation parts vars gt st).2 =
      ((createBoxOperation parts vars gt st).1, (createBoxOperation parts vars gt st).2)) ∧
    (createSphereOperation parts vars gt (createSphereOperation parts vars gt st).2 =
      ((createSphereOperation parts vars gt st).1,
        (createSphereOperation parts vars gt st).2)) ∧
    (createBoxOperation parts vars gt st).1.isSome = true := by
  refine ⟨?_, ?_, ?_⟩
  · unfold createBoxOperation
    simp only [if_pos h]
    have := createCachedGeometry_stable "box" ((parts.take 3).map (getModValueTop vars)) gt st
    rw [this]
  · unfold createSphereOperation
    simp only [if_pos h]
    have := createCachedGeometry_stable "sphere" ((parts.take 3).map (getModValueTop vars)) gt st
    rw [this]
  · unfold createBoxOperation
    simp [if_pos h]

/-- C8, witness. -/
theorem c8_cache_returns_same_handle_witness :
    (createBoxOperation [.num 2, .num 3, .num 4] [] {}
        (createBoxOperation [.num 2, .num 3, .num 4] [] {} {}).2 =
      ((createBoxOperation [.num 2, .num 3, .num 4] [] {} {}).1,
       (createBoxOperation [.num 2, .num 3, .num 4] [] {} {}).2)) ∧
    (createSphereOperation [.num 2, .num 3, .num 4] [] {}
        (createSphereOperation [.num 2, .num 3, .num 4] [] {} {}).2 =
      ((createSphereOperation [.num 2, .num 3, .num 4] [] {} {}).1,
       (createSphereOperation [.num 2, .num 3, .num 4] [] {} {}).2)) ∧
    (createBoxOperation [.num 2, .num 3, .num 4] [] {} {}).1.isSome = true :=
  c8_cache_returns_same_handle [.num 2, .num 3, .num 4] [] {} {} (by decide)

end BMLoader

namespace BMLoader

/-- The build state after the single instruction `box(1,1,1)`: one cached
box geometry. -/
def boxBuilt : BuildState := (createBoxOperation [.num 1, .num 1, .num 1] [] {} {}).2

/-- C9, counterexample: after `box(1,1,1)` the geometry sits in the global
cache under its canonical key; the very next instruction `bottomAlign()`
mutates that cached geometry's vertex data in place (`geometry.translate(0,
0.5, 0)`), contradicting the claim that no script instruction ever mutates
a cached geometry. -/
theorem c9_counterexample :
    cacheLookup boxBuilt "box.1.1.1.0.0.0" = some 0 ∧
    boxBuilt.geoHeap.get? 0 =
      some { shape := "box", params := [1, 1, 1], offset := {} } ∧
    (bottomAlign 0 boxBuilt).geoHeap.get? 0 =
      some { shape := "box", params := [1, 1, 1], offset := { y := 1/2 } } ∧
    ({ y := (1 : ℚ)/2 } : Vec3Q) ≠ ({} : Vec3Q) := by
  refine ⟨?_, ?_, ?_, ?_⟩
  · with_unfolding_all rfl
  · with_unfolding_all rfl
  · with_unfolding_all rfl
  · with_unfolding_all decide

/-- C9 (amended): the transform instructions `position(...)`, `rotate(...)`
and `scale(...)` change only the node's transform — they never touch the
geometry store, and the node keeps its geometry handle — but the
`bottomAlign()` instruction does mutate the (possibly cached and shared)
geometry in place: on a box of height `sy` it translates the vertex data so
that the cumulative offset becomes `sy / 2`. -/
theorem c9_transforms_leave_geometry (args : List JSVal)
    (vars : List (String × JSVal)) (n : BuildNode) (st : BuildState)
    (gid : ℕ) (g : Geometry) (sx sy sz : ℚ)
    (hget : st.geoHeap.get? gid = some g) (hshape : g.shape = "box")
    (hparams : g.params = [sx, sy, sz]) :
    ((doPositionOperation args vars n st).2 = st ∧
     (doPositionOperation args vars n st).1.geoId = n.geoId) ∧
    ((doRotateOperation args vars n st).2 = st ∧
     (doRotateOperation args vars n st).1.geoId = n.geoId) ∧
    ((doScaleOperation args vars n st).2 = st ∧
     (doScaleOperation args vars n st).1.geoId = n.geoId) ∧
    (bottomAlign gid st).geoHeap.get? gid =
      some { g with offset := { g.offset with y := sy / 2 } } := by
  refine ⟨⟨?_, ?_⟩, ⟨?_, ?_⟩, ⟨?_, ?_⟩, ?_⟩
  · unfold doPositionOperation
    split_ifs with h
    · match args, h with
      | a :: b :: c :: _, _ => rfl
    · rfl
  · unfold doPositionOperation
    split_ifs with h
    · match args, h with
      | a :: b :: c :: _, _ => rfl
    · rfl
  · unfold doRotateOperation
    split_ifs with h
    · match args, h with
      | a :: b :: c :: _, _ => rfl
    · rfl
  · unfold doRotateOperation
    split_ifs with h
    · match args, h with
      | a :: b :: c :: _, _ => rfl
    · rfl
  · unfold doScaleOperation
    split_ifs with h
    · match args, h with
      | a :: b :: c :: _, _ => rfl
    · rfl
  · unfold doScaleOperation
    split_ifs with h
    · match args, h with
      | a :: b :: c :: _, _ => rfl
    · rfl
  · have hlt : gid < st.geoHeap.length := by
      by_contra hc
      push_neg at hc
      rw [List.get?_eq_getElem?, List.getElem?_eq_none hc] at hget
      cases hget
    unfold bottomAlign
    rw [hget]
    simp only [geoMinY, hshape, hparams]
    rw [List.get?_eq_getElem?]
    rw [List.getElem?_set_eq_of_lt _ (by simpa using hlt)]
    congr 1
    have hy : g.offset.y + -(-(sy / 2) + g.offset.y) = sy / 2 := by ring
    simp [hy]

/-- C9, witness. -/
theorem c9_transforms_leave_geometry_witness :
    ((doPositionOperation [.num 1, .num 2, .num 3] [] {} boxBuilt).2 = boxBuilt ∧
     (doPositionOperation [.num 1, .num 2, .num 3] [] {} boxBuilt).1.geoId
       = ({} : BuildNode).geoId) ∧
    ((doRotateOperation [.num 1, .num 2, .num 3] [] {} boxBuilt).2 = boxBuilt ∧
     (doRotateOperation [.num 1, .num 2, .num 3] [] {} boxBuilt).1.geoId
       = ({} : BuildNode).geoId) ∧
    ((doScaleOperation [.num 1, .num 2, .num 3] [] {} boxBuilt).2 = boxBuilt ∧
     (doScaleOperation [.num 1, .num 2, .num 3] [] {} boxBuilt).1.geoId
       = ({} : BuildNode).geoId) ∧
    (bottomAlign 0 boxBuilt).geoHeap.get? 0 =
      some { shape := "box", params := [1, 1, 1],
             offset := { y := (1 : ℚ) / 2 } } :=
  c9_transforms_leave_geometry [.num 1, .num 2, .num 3] [] {} boxBuilt 0
    { shape := "box", params := [1, 1, 1], offset := {} } 1 1 1
    (by with_unfolding_all rfl) rfl rfl

end BMLoader

namespace BMLoader

/-- Dispatch shape of `doAnimate`: when the target resolves to an object,
the action is not a texture change, and the action classifies to a base
property and a valid axis, `doAnimate` reduces to `doAnimateCore` with the
speed and step-target expressions resolved through the evaluator. -/
theorem doAnimate_dispatch (m : AnimModel) (inst : RenderAnimation) (d : ℚ)
    (oid : ℕ) (ob : NodeState) (base : BaseProp) (sub : String) (ax : Axis)
    (hlook : lookupVar m.variableMap inst.target = some (.obj oid))
    (hget : m.objects.get? oid = some ob)
    (htx : inst.action.startsWith "txChange" = false)
    (hcls : classifyAction inst.action = some (base, sub))
    (hax : axisOf sub = some ax) :
    doAnimate m inst d = doAnimateCore m inst oid ob base ax
      (jmul (jmap degToRad (jsParseFloat (getModValueTop (mergedVars m) inst.speed)))
        (some d))
      ((inst.steps.get? inst.step).map (getModValueTop (mergedVars m))) := by
  unfold doAnimate
  rw [hlook]
  simp only []
  rw [hget]
  simp only [htx, hcls, hax, Bool.false_eq_true, if_false]

/-- A one-object model: the heap holds `ob`, bound to the variable `o`. -/
def kinModel (ob : NodeState) : AnimModel :=
  { objects := [ob], variableMap := [("o", .obj 0)], animations := [] }

/-- A two-step animation instruction on `o` with a numeric-literal speed and
first step target. -/
def kinInst (action : String) (s t : ℚ) : RenderAnimation :=
  { target := "o", action := action, speed := .num s, steps := [.num t, .num 720] }

/-- The instruction target `o` resolves to the heap object. -/
theorem kin_lookup (ob : NodeState) (a : String) (s t : ℚ) :
    lookupVar (kinModel ob).variableMap (kinInst a s t).target = some (.obj 0) := rfl

/-- The heap lookup of the resolved object. -/
theorem kin_get (ob : NodeState) : (kinModel ob).objects.get? 0 = some ob := rfl

theorem kin_tx_position (s t : ℚ) :
    ((kinInst "positionX" s t).action.startsWith "txChange") = false := by
  show ("positionX".startsWith "txChange") = false
  with_unfolding_all rfl

theorem kin_cls_position (s t : ℚ) :
    classifyAction (kinInst "positionX" s t).action = some (.position, "x") := by
  show classifyAction "positionX" = some (.position, "x")
  with_unfolding_all rfl

theorem kin_tx_scale (s t : ℚ) :
    ((kinInst "scaleY" s t).action.startsWith "txChange") = false := by
  show ("scaleY".startsWith "txChange") = false
  with_unfolding_all rfl

theorem kin_cls_scale (s t : ℚ) :
    classifyAction (kinInst "scaleY" s t).action = some (.scale, "y") := by
  show classifyAction "scaleY" = some (.scale, "y")
  with_unfolding_all rfl

theorem kin_tx_rotate (s t : ℚ) :
    ((kinInst "rotateZ" s t).action.startsWith "txChange") = false := by
  show ("rotateZ".startsWith "txChange") = false
  with_unfolding_all rfl

theorem kin_cls_rotate (s t : ℚ) :
    classifyAction (kinInst "rotateZ" s t).action = some (.rotation, "z") := by
  show classifyAction "rotateZ" = some (.rotation, "z")
  with_unfolding_all rfl

theorem kin_ax_x : axisOf "x" = some Axis.x := rfl

theorem kin_ax_y : axisOf "y" = some Axis.y := rfl

theorem kin_ax_z : axisOf "z" = some Axis.z := rfl

set_option maxHeartbeats 1600000 in
/-- C5: one animation tick moves the animated scalar toward the resolved step
target by exactly `degToRad speed * delta` — the degrees-to-radians conversion
of the speed applies to position and scale instructions just as to rotation
(bmloader.js line 1356) — while only rotation step targets are themselves
converted to radians; when the moving value crosses the target it is clamped
to the target exactly and the step cursor advances.  Part one: a `positionX`
instruction crossing its target from above clamps to the plain (unconverted)
target `t` and advances the cursor.  Part two: a non-crossing `scaleY`
instruction moves by exactly `degToRad s2 * d2`, keeping cursor 0.  Part
three: a crossing `rotateZ` instruction clamps to the radian-converted target
`degToRad t3` and advances the cursor. -/
theorem c5_step_kinematics
    (cur s t d cur2 s2 t2 d2 cur3 s3 t3 d3 : ℚ)
    (h1 : cur > t) (h1c : cur - degToRad s * d ≤ t)
    (h2 : cur2 ≤ t2) (h2c : cur2 + degToRad s2 * d2 < t2)
    (h3 : cur3 ≤ degToRad t3) (h3f : degToRad t3 < FULLTURN)
    (h3c : cur3 + degToRad s3 * d3 ≥ degToRad t3) :
    ((doAnimate (kinModel { position := { x := some cur } }) (kinInst "positionX" s t) d).1.objects
       = [{ position := { x := some t } }] ∧
     (doAnimate (kinModel { position := { x := some cur } }) (kinInst "positionX" s t) d).2.step = 1) ∧
    ((doAnimate (kinModel { scale := { y := some cur2 } }) (kinInst "scaleY" s2 t2) d2).1.objects
       = [{ scale := { y := some (cur2 + degToRad s2 * d2) } }] ∧
     (doAnimate (kinModel { scale := { y := some cur2 } }) (kinInst "scaleY" s2 t2) d2).2.step = 0) ∧
    ((doAnimate (kinModel { rotation := { z := some cur3 } }) (kinInst "rotateZ" s3 t3) d3).1.objects
       = [{ rotation := { z := some (degToRad t3) } }] ∧
     (doAnimate (kinModel { rotation := { z := some cur3 } }) (kinInst "rotateZ" s3 t3) d3).2.step = 1) := by
  refine ⟨?_, ?_, ?_⟩
  · have hd := doAnimate_dispatch (kinModel { position := { x := some cur } })
      (kinInst "positionX" s t) d 0 { position := { x := some cur } } .position "x" .x
      (kin_lookup _ _ s t) (kin_get _) (kin_tx_position s t) (kin_cls_position s t) kin_ax_x
    have hsp : jmul (jmap degToRad (jsParseFloat (getModValueTop
        (mergedVars (kinModel { position := { x := some cur } }))
        (kinInst "positionX" s t).speed))) (some d) = some (degToRad s * d) := rfl
    have htv : ((kinInst "positionX" s t).steps.get? (kinInst "positionX" s t).step).map
        (getModValueTop (mergedVars (kinModel { position := { x := some cur } })))
        = some (.num t) := rfl
    rw [hsp, htv] at hd
    rw [hd]
    unfold doAnimateCore
    simp only []
    simp only [show getField { position := { x := some cur } } BaseProp.position Axis.x = some cur from rfl,
      Option.getD, jsParseFloat, jgt, jle, jsub, jadd, jge, decide_eq_true_eq]
    simp only [if_pos h1, if_pos h1c]
    norm_num
    exact ⟨rfl, rfl⟩
  · have hd := doAnimate_dispatch (kinModel { scale := { y := some cur2 } })
      (kinInst "scaleY" s2 t2) d2 0 { scale := { y := some cur2 } } .scale "y" .y
      (kin_lookup _ _ s2 t2) (kin_get _) (kin_tx_scale s2 t2) (kin_cls_scale s2 t2) kin_ax_y
    have hsp : jmul (jmap degToRad (jsParseFloat (getModValueTop
        (mergedVars (kinModel { scale := { y := some cur2 } }))
        (kinInst "scaleY" s2 t2).speed))) (some d2) = some (degToRad s2 * d2) := rfl
    have htv : ((kinInst "scaleY" s2 t2).steps.get? (kinInst "scaleY" s2 t2).step).map
        (getModValueTop (mergedVars (kinModel { scale := { y := some cur2 } })))
        = some (.num t2) := rfl
    rw [hsp, htv] at hd
    rw [hd]
    unfold doAnimateCore
    simp only []
    simp only [show getField { scale := { y := some cur2 } } BaseProp.scale Axis.y = some cur2 from rfl,
      Option.getD, jsParseFloat, jgt, jle, jsub, jadd, jge, decide_eq_true_eq]
    simp only [if_neg (not_lt.mpr h2), if_neg (not_le.mpr h2c)]
    norm_num
    exact ⟨rfl, rfl⟩
  · have hd := doAnimate_dispatch (kinModel { rotation := { z := some cur3 } })
      (kinInst "rotateZ" s3 t3) d3 0 { rotation := { z := some cur3 } } .rotation "z" .z
      (kin_lookup _ _ s3 t3) (kin_get _) (kin_tx_rotate s3 t3) (kin_cls_rotate s3 t3) kin_ax_z
    have hsp : jmul (jmap degToRad (jsParseFloat (getModValueTop
        (mergedVars (kinModel { rotation := { z := some cur3 } }))
        (kinInst "rotateZ" s3 t3).speed))) (some d3) = some (degToRad s3 * d3) := rfl
    have htv : ((kinInst "rotateZ" s3 t3).steps.get? (kinInst "rotateZ" s3 t3).step).map
        (getModValueTop (mergedVars (kinModel { rotation := { z := some cur3 } })))
        = some (.num t3) := rfl
    rw [hsp, htv] at hd
    rw [hd]
    unfold doAnimateCore
    simp only []
    simp only [show getField { rotation := { z := some cur3 } } BaseProp.rotation Axis.z = some cur3 from rfl,
      Option.getD, jsParseFloat, jmap, jgt, jle, jsub, jadd, jge, decide_eq_true_eq]
    simp only [if_neg (not_lt.mpr h3), if_pos h3c]
    norm_num [not_le.mpr h3f]
    exact ⟨rfl, rfl⟩

/-- C5 counterexample: a `positionX` instruction with speed 180 and delta 1,
starting at 0 with step target 10, moves the x position by `piQ` (the
JavaScript double for Math.PI, about 3.14) — not by the 180 units the spec's
reading implies, and it does not reach or clamp to the target 10 (the step
cursor stays at 0).  The speed of a position instruction is fed through
`degToRad` (bmloader.js line 1356). -/
theorem c5_counterexample :
    (doAnimate (kinModel { position := { x := some 0 } }) (kinInst "positionX" 180 10) 1).1.objects
      = [{ position := { x := some piQ } }] ∧
    (doAnimate (kinModel { position := { x := some 0 } }) (kinInst "positionX" 180 10) 1).2.step = 0 ∧
    piQ ≠ 180 ∧ piQ ≠ 10 := by
  refine ⟨?_, ?_, ?_, ?_⟩
  · with_unfolding_all rfl
  · with_unfolding_all rfl
  · with_unfolding_all decide
  · with_unfolding_all decide

/-- Witness for C5: the kinematics theorem applied at concrete inputs
(position: start 10, speed 1800, target 0, delta 1; scale: start 1, speed 1,
target 2; rotation: start 0, speed 1800, target 90 degrees). -/
theorem c5_step_kinematics_witness :
    ((10:ℚ) > 0 ∧ (10:ℚ) - degToRad 1800 * 1 ≤ 0 ∧
     (1:ℚ) ≤ 2 ∧ (1:ℚ) + degToRad 1 * 1 < 2 ∧
     (0:ℚ) ≤ degToRad 90 ∧ degToRad 90 < FULLTURN ∧ (0:ℚ) + degToRad 1800 * 1 ≥ degToRad 90) ∧
    (((doAnimate (kinModel { position := { x := some 10 } }) (kinInst "positionX" 1800 0) 1).1.objects
        = [{ position := { x := some 0 } }] ∧
      (doAnimate (kinModel { position := { x := some 10 } }) (kinInst "positionX" 1800 0) 1).2.step = 1) ∧
     ((doAnimate (kinModel { scale := { y := some 1 } }) (kinInst "scaleY" 1 2) 1).1.objects
        = [{ scale := { y := some (1 + degToRad 1 * 1) } }] ∧
      (doAnimate (kinModel { scale := { y := some 1 } }) (kinInst "scaleY" 1 2) 1).2.step = 0) ∧
     ((doAnimate (kinModel { rotation := { z := some 0 } }) (kinInst "rotateZ" 1800 90) 1).1.objects
        = [{ rotation := { z := some (degToRad 90) } }] ∧
      (doAnimate (kinModel { rotation := { z := some 0 } }) (kinInst "rotateZ" 1800 90) 1).2.step = 1)) :=
  ⟨⟨by norm_num, by norm_num [degToRad, piQ], by norm_num, by norm_num [degToRad, piQ],
    by norm_num [degToRad, piQ], by norm_num [degToRad, piQ, FULLTURN], by norm_num [degToRad, piQ]⟩,
   c5_step_kinematics 10 1800 0 1 1 1 2 1 0 1800 90 1
     (by norm_num) (by norm_num [degToRad, piQ]) (by norm_num) (by norm_num [degToRad, piQ])
     (by norm_num [degToRad, piQ]) (by norm_num [degToRad, piQ, FULLTURN]) (by norm_num [degToRad, piQ])⟩

/-- The circular binding pair of C6: the variable x holds the string
"$y+1" and y holds "$x+1". -/
def c6Vars : List (String × JSVal) := [("x", .str "$y+1"), ("y", .str "$x+1")]

theorem varOnlyMatch_dollar (cs : List Char) (h1 : cs ≠ []) (h2 : cs.all isWordChar = true) :
    varOnlyMatch (String.mk ('$' :: cs)) = some (false, String.mk cs) := by
  have h : varOnlyMatch (String.mk ('$' :: cs))
      = if cs ≠ [] ∧ cs.all isWordChar then some (false, String.mk cs) else none := by
    with_unfolding_all rfl
  rw [h, if_pos ⟨h1, h2⟩]

theorem getModValue_visited_hit (fuel : ℕ) (vars : List (String × JSVal))
    (vis : List String) (cs : List Char) (h1 : cs ≠ []) (h2 : cs.all isWordChar = true)
    (hv : String.mk cs ∈ vis) :
    (getModValue (fuel + 1) vars (.str (String.mk ('$' :: cs))) vis).1 = .num 0 := by
  simp only [getModValue]
  rw [varOnlyMatch_dollar cs h1 h2]
  simp [if_pos hv]

/-- C6: with the variable x bound to the string "$y+1" and y to "$x+1",
evaluating either variable terminates and soft-fails: the inner occurrence
that closes the cycle resolves to the numeric value 0 (any variable name
already in the visited set resolves to 0 -- the general fact in the second
conjunct), and the surrounding +1 arithmetic still applies on the way out, so
each full evaluation yields 0 + 1 + 1 = 2, not 0. -/
theorem c6_circular_reference :
    (getModValueTop c6Vars (.str "$x") = .num 2 ∧
     getModValueTop c6Vars (.str "$y") = .num 2 ∧
     (JSVal.num 2 : JSVal) ≠ .num 0) ∧
    (∀ (fuel : ℕ) (vars : List (String × JSVal)) (vis : List String) (cs : List Char),
      cs ≠ [] → cs.all isWordChar = true → String.mk cs ∈ vis →
      (getModValue (fuel + 1) vars (.str (String.mk ('$' :: cs))) vis).1 = .num 0) := by
  refine ⟨⟨?_, ?_, ?_⟩, ?_⟩
  · with_unfolding_all rfl
  · with_unfolding_all rfl
  · with_unfolding_all decide
  · intro fuel vars vis cs h1 h2 hv
    exact getModValue_visited_hit fuel vars vis cs h1 h2 hv

/-- C6 counterexample: the full evaluation of the circular variable x is 2,
not 0 -- only the innermost circular occurrence is zeroed; the two pending +1
additions still apply. -/
theorem c6_counterexample :
    getModValueTop c6Vars (.str "$x") = .num 2 ∧ (JSVal.num 2 : JSVal) ≠ .num 0 := by
  refine ⟨?_, ?_⟩
  · with_unfolding_all rfl
  · with_unfolding_all decide

/-- Witness for C6: the visited-hit fact of the theorem applied at the
concrete name x with visited set containing x and fuel 2. -/
theorem c6_circular_reference_witness :
    ((['x'] : List Char) ≠ [] ∧ ['x'].all isWordChar = true ∧ String.mk ['x'] ∈ ["x"]) ∧
    (getModValue 3 c6Vars (.str (String.mk ('$' :: ['x']))) ["x"]).1 = .num 0 :=
  ⟨⟨by decide, by with_unfolding_all decide, List.mem_singleton.mpr rfl⟩,
   c6_circular_reference.2 2 c6Vars ["x"] ['x'] (by decide) (by with_unfolding_all decide)
     (List.mem_singleton.mpr rfl)⟩

/-- Every decimal digit character is a digit character. -/
theorem digitChar_isDigit : ∀ d : Fin 10, isDigitChar (digitChar d) = true := by decide

/-- Recovering the digit value from its character. -/
theorem digitChar_toNat : ∀ d : Fin 10, (digitChar d).toNat - '0'.toNat = (d : ℕ) := by decide

/-- `takeWhile` consumes exactly a prefix that satisfies the predicate when
the suffix starts with a failing character. -/
theorem takeWhile_all_append (p : Char → Bool) (l1 l2 : List Char)
    (h1 : l1.all p = true) (h2 : l2.takeWhile p = []) :
    (l1 ++ l2).takeWhile p = l1 := by
  induction l1 with
  | nil => simpa using h2
  | cons c t ih =>
    simp only [List.all_cons, Bool.and_eq_true] at h1
    simp [List.takeWhile_cons, h1.1, ih h1.2]

/-- A rendered digit run consists of digit characters. -/
theorem all_digitChar (ip : List (Fin 10)) : (ip.map digitChar).all isDigitChar = true := by
  induction ip with
  | nil => rfl
  | cons d t ih => simp [List.all_cons, ih, digitChar_isDigit d]

/-- The fractional tail of a rendered numeral starts with `.` (or is empty),
so the digit scan stops there. -/
theorem fpc_takeWhile (fp : List (Fin 10)) :
    ((if fp = [] then [] else '.' :: fp.map digitChar).takeWhile isDigitChar) = [] := by
  cases fp with
  | nil => rfl
  | cons d t =>
    with_unfolding_all rfl

/-- The digit-character fold computes the same value as the digit fold,
for any accumulator. -/
theorem foldl_digit (ip : List (Fin 10)) : ∀ a : ℕ,
    List.foldl (fun a c => a * 10 + (c.toNat - '0'.toNat)) a (ip.map digitChar)
      = List.foldl (fun a d => a * 10 + Fin.val d) a ip := by
  induction ip with
  | nil => intro a; rfl
  | cons d t ih =>
    intro a
    simp only [List.map_cons, List.foldl_cons, digitChar_toNat d]
    exact ih _

/-- The numeric value of a rendered digit run. -/
theorem natOfDigits_map_digitChar (ip : List (Fin 10)) :
    natOfDigits (ip.map digitChar) = natOfFins ip := by
  unfold natOfDigits natOfFins
  exact foldl_digit ip 0

/-- `parseInt` on a string starting with a digit: sign 1, digits scanned
from the head. -/
theorem parseIntJS_digits (d : Fin 10) (tl : List Char) :
    parseIntJS (String.mk (digitChar d :: tl)) =
      some (1 * (natOfDigits (digitChar d :: tl.takeWhile isDigitChar) : ℤ)) := by
  fin_cases d <;> with_unfolding_all rfl

/-- `parseInt` on a string starting with `-`: sign -1, digits scanned after
the sign. -/
theorem parseIntJS_neg (tl : List Char) :
    parseIntJS (String.mk ('-' :: tl)) =
      (if tl.takeWhile isDigitChar = [] then none
       else some (-1 * (natOfDigits (tl.takeWhile isDigitChar) : ℤ))) := by
  with_unfolding_all rfl

/-- A fractional digit run has value in `[0, 1)`. -/
theorem fracOfFins_bounds (fp : List (Fin 10)) : 0 ≤ fracOfFins fp ∧ fracOfFins fp < 1 := by
  induction fp with
  | nil => norm_num [fracOfFins]
  | cons d t ih =>
    have hstep : fracOfFins (d :: t) = ((d : ℚ) + fracOfFins t) / 10 := by
      with_unfolding_all rfl
    rw [hstep]
    obtain ⟨h0, h1⟩ := ih
    have hd0 : (0 : ℚ) ≤ (d : ℚ) := by positivity
    have hd9 : (d : ℚ) ≤ 9 := by exact_mod_cast Fin.is_le d
    constructor
    · apply div_nonneg (by linarith) (by norm_num)
    · rw [div_lt_one (by norm_num)]
      linarith

/-- Truncating a decimal numeral toward zero keeps exactly the integer-part
digits (with the sign; `-0` collapses to 0). -/
theorem jsTrunc_decValue (neg : Bool) (ip fp : List (Fin 10)) :
    jsTrunc (decValue neg ip fp) = (if neg then -1 else 1) * (natOfFins ip : ℤ) := by
  obtain ⟨h0, h1⟩ := fracOfFins_bounds fp
  have hn0 : (0 : ℚ) ≤ (natOfFins ip : ℚ) := by positivity
  have hfl : ⌊(natOfFins ip : ℚ) + fracOfFins fp⌋ = (natOfFins ip : ℤ) := by
    rw [Int.floor_eq_iff]
    constructor
    · push_cast; linarith
    · push_cast; linarith
  unfold jsTrunc decValue
  cases neg with
  | false =>
    simp only [Bool.false_eq_true, if_false, one_mul]
    rw [if_pos (by linarith : (0:ℚ) ≤ (natOfFins ip : ℚ) + fracOfFins fp)]
    exact hfl
  | true =>
    simp only [reduceIte]
    by_cases hq : (0:ℚ) ≤ -1 * ((natOfFins ip : ℚ) + fracOfFins fp)
    · have hz : (natOfFins ip : ℚ) + fracOfFins fp = 0 := le_antisymm (by linarith) (by linarith)
      have hn : (natOfFins ip : ℚ) = 0 := by linarith
      have hn2 : natOfFins ip = 0 := by exact_mod_cast hn
      rw [if_pos hq, hz]
      simp [hn2]
    · rw [if_neg hq]
      have hneg : -(-1 * ((natOfFins ip : ℚ) + fracOfFins fp)) = (natOfFins ip : ℚ) + fracOfFins fp := by
        ring
      rw [hneg, hfl]
      ring

/-- The two-sided clamp of `doOpacityOperation` written with `max`/`min`. -/
theorem clamp_int (v : ℤ) :
    (if (if v < 0 then 0 else v) > 1 then 1 else (if v < 0 then 0 else v)) = max 0 (min v 1) := by
  split_ifs <;> omega

/-- `parseInt` of a rendered signed decimal numeral keeps the sign and the
integer-part digits only. -/
theorem parseInt_renderDec (neg : Bool) (ip fp : List (Fin 10)) (h : ip ≠ []) :
    parseIntJS (renderDec neg ip fp) = some ((if neg then -1 else 1) * (natOfFins ip : ℤ)) := by
  have hfpc := fpc_takeWhile fp
  cases neg with
  | true =>
    have hs : renderDec true ip fp = String.mk ('-' ::
        (ip.map digitChar ++ (if fp = [] then [] else '.' :: fp.map digitChar))) := by
      unfold renderDec
      simp
    rw [hs, parseIntJS_neg, takeWhile_all_append _ _ _ (all_digitChar ip) hfpc]
    rw [if_neg (by simp [h])]
    rw [natOfDigits_map_digitChar]
    norm_num
  | false =>
    obtain ⟨d, ip', rfl⟩ : ∃ a t, ip = a :: t := by
      cases ip with
      | nil => exact absurd rfl h
      | cons a b => exact ⟨a, b, rfl⟩
    have hs : renderDec false (d :: ip') fp = String.mk (digitChar d ::
        (ip'.map digitChar ++ (if fp = [] then [] else '.' :: fp.map digitChar))) := by
      unfold renderDec
      simp
    rw [hs, parseIntJS_digits, takeWhile_all_append _ _ _ (all_digitChar ip') hfpc]
    rw [show digitChar d :: ip'.map digitChar = (d :: ip').map digitChar from rfl,
      natOfDigits_map_digitChar]
    norm_num

/-- C10: `doOpacityOperation` (bmloader.js lines 2329-2369) parses its
argument with `parseInt` (NaN defaulting to 1), clamps the value into
`[0, 1]`, assigns it as the opacity of the single material or of every member
of a material array, and sets `transparent = true` on each; and `parseInt`
truncates every decimal numeral argument toward zero (so `opacity(0.7)`
yields opacity 0, not 0.7). -/
theorem c10_opacity_semantics :
    (∀ (code : String) (mat : MaterialSlot),
      ∀ mm ∈ matsOf (doOpacityOperation code mat),
        mm.transparent = true ∧
        mm.opacity = ((max 0 (min ((parseIntJS (stripOpacityCall code)).getD 1) 1) : ℤ) : ℚ) ∧
        0 ≤ mm.opacity ∧ mm.opacity ≤ 1) ∧
    (∀ (neg : Bool) (ip fp : List (Fin 10)), ip ≠ [] →
      parseIntJS (renderDec neg ip fp) = some (jsTrunc (decValue neg ip fp))) := by
  constructor
  · intro code mat mm hmm
    have hval : ∀ m0 : JSMaterial,
        mm = { m0 with
            opacity := ((if (if (parseIntJS (stripOpacityCall code)).getD 1 < 0 then 0
                else (parseIntJS (stripOpacityCall code)).getD 1) > 1 then 1
              else (if (parseIntJS (stripOpacityCall code)).getD 1 < 0 then 0
                else (parseIntJS (stripOpacityCall code)).getD 1) : ℤ) : ℚ),
            transparent := true } →
        mm.transparent = true ∧
        mm.opacity = ((max 0 (min ((parseIntJS (stripOpacityCall code)).getD 1) 1) : ℤ) : ℚ) ∧
        0 ≤ mm.opacity ∧ mm.opacity ≤ 1 := by
      intro m0 hm
      subst hm
      refine ⟨rfl, ?_, ?_, ?_⟩
      · simp only [clamp_int]
      · simp only [clamp_int]
        positivity
      · simp only [clamp_int]
        have : max 0 (min ((parseIntJS (stripOpacityCall code)).getD 1) 1) ≤ 1 := by omega
        exact_mod_cast this
    cases mat with
    | noMat => simp [doOpacityOperation, matsOf] at hmm
    | single m =>
      simp only [doOpacityOperation, matsOf, List.mem_singleton, Option.getD] at hmm
      apply hval m
      rw [hmm]
      cases hp : parseIntJS (stripOpacityCall code) <;> simp [hp, Option.getD]
    | array ms =>
      simp only [doOpacityOperation, matsOf, List.mem_map] at hmm
      obtain ⟨m0, hm0, hq⟩ := hmm
      apply hval m0
      rw [← hq]
      cases hp : parseIntJS (stripOpacityCall code) <;> simp [hp, Option.getD]
  · intro neg ip fp h
    rw [parseInt_renderDec neg ip fp h, jsTrunc_decValue]

/-- Witness for C10: the opacity semantics applied to `opacity(0.7)` on a
single default material (the resulting material has opacity 0 and
`transparent = true`), and the truncation fact applied to the numeral 0.7. -/
theorem c10_opacity_semantics_witness :
    ((⟨0, true⟩ : JSMaterial) ∈ matsOf (doOpacityOperation "opacity(0.7)" (.single {})) ∧
     ((⟨0, true⟩ : JSMaterial).transparent = true ∧
      (⟨0, true⟩ : JSMaterial).opacity
        = ((max 0 (min ((parseIntJS (stripOpacityCall "opacity(0.7)")).getD 1) 1) : ℤ) : ℚ) ∧
      0 ≤ (⟨0, true⟩ : JSMaterial).opacity ∧ (⟨0, true⟩ : JSMaterial).opacity ≤ 1)) ∧
    (([0] : List (Fin 10)) ≠ [] ∧
     parseIntJS (renderDec false [0] [7]) = some (jsTrunc (decValue false [0] [7]))) := by
  have hmem : (⟨0, true⟩ : JSMaterial) ∈ matsOf (doOpacityOperation "opacity(0.7)" (.single {})) := by
    have hev : matsOf (doOpacityOperation "opacity(0.7)" (.single {})) = [⟨0, true⟩] := by
      with_unfolding_all rfl
    rw [hev]
    exact List.mem_singleton.mpr rfl
  exact ⟨⟨hmem, c10_opacity_semantics.1 "opacity(0.7)" (.single {}) ⟨0, true⟩ hmem⟩,
    ⟨by decide, c10_opacity_semantics.2 false [0] [7] (by decide)⟩⟩

end BMLoader
